import Mathlib

/-!
Shallow embedding of the resource-linking build engine of the `wrend`
rendering framework (`src/wrend/src/renderer/renderer.rs` and the link
descriptor modules), together with proofs about its build pipeline.

Identifiers are modelled as `String` (the `IdName` capability maps an
identifier to the GPU-visible name string; we instantiate it with the
identity, which is a faithful instance of the `Id + IdName` contract).
GPU handles are modelled as `Nat`.  Creation callbacks that the build
merely invokes and whose only build-relevant observable is the handle
they return are modelled as the returned handle tag; the build emits an
explicit event trace recording every callback invocation and every GPU
binding call the builder issues, in source order.
-/

namespace Wrend

/-- `ShaderType` (vertex vs fragment), from `shader_type.rs` usage in
`compile_shader`. -/
inductive ShaderType
  | VertexShader
  | FragmentShader
deriving DecidableEq, Repr

/-- The WebGL2 rendering context, modelled as an oracle answering exactly the
queries the builder issues (`web_sys::WebGl2RenderingContext`).  Shader
handles are keyed by (type, source) to keep the model deterministic. -/
structure WebGl2RenderingContext where
  createShader : ShaderType → String → Option Nat
  compileStatus : Nat → Bool
  shaderInfoLog : Nat → Option String
  createVertexArray : Option Nat
  getAttribLocation : Nat → String → Int
  getUniformLocation : Nat → String → Option Nat
  createTransformFeedback : Option Nat

/-- Result of `canvas.get_context_with_context_options("webgl2", ...)` followed
by the `dyn_into` conversion, as consumed by `context_from_canvas`. -/
inductive ContextAcqResult
  | apiError
  | contextNone
  | typeMismatch
  | ok (gl : WebGl2RenderingContext)

/-- `web_sys::HtmlCanvasElement`, reduced to the only operation the builder
performs on it: context acquisition. -/
structure HtmlCanvasElement where
  get_context : ContextAcqResult

/-- `RendererBuilderError` from `renderer.rs`, one constructor per source
variant (diagnostic strings kept, display text dropped). -/
inductive RendererBuilderError
  | WebGL2ContextRetrievalError
  | WebGL2ContextNotFoundError
  | WebGL2TypeConversionError
  | NoCanvasBuildError
  | NoContextBuildError
  | NoRenderCallbackBuildError
  | NoContextCompileShaderError
  | NoShaderReturnedCompilerShaderError
  | KnownErrorCompileShaderError (reason : String)
  | UnknownErrorCompilerShaderError
  | NoContextLinkProgramError
  | VertexShaderNotFoundLinkProgramError
  | FragmentShaderNotFoundLinkProgramError
  | NoProgramLinkLinkProgramError
  | NoProgramLinkProgramError
  | NoVaoLinkProgramError
  | CreateProgramLinkProgramError (err : String)
  | NoContextBuildUniformsError
  | ProgramNotFoundBuildUniformsError
  | UniformLocationNotFoundBuildUniformsError (uniform_id : String)
  | NoContextInitializeUniformsError
  | CanvasReturnedNoContext
  | AttributeLocationNotFoundCreateAttributeError
  | NoContextCreateAttributeError
  | ProgramNotFoundCreateAttributeError
  | VAONotFoundCreateAttributeError
  | BufferNotFoundCreateAttributeError
  | NoContextCreateTextureError
  | NoContextCreateFramebufferError
  | NoContextBuildTransformFeedbackError
  | TransformFeedbackNotFoundTransformFeedbackError
deriving DecidableEq, Repr

deriving instance DecidableEq for Except

/-- `ProgramLink` (program id, shader ids, transform-feedback varyings, and the
program-creation callback; the callback's outcome — `Result<WebGlProgram,
CreateProgramError>` — is recorded as the fixed `Except` value it returns). -/
structure ProgramLink where
  program_id : String
  vertex_shader_id : String
  fragment_shader_id : String
  transform_feedback_varyings : List String
  program_create_callback : Except String Nat
deriving DecidableEq, Repr

/-- `BufferLink` (`buffer_id` plus creation callback, modelled as the
`WebGlBuffer` handle the callback returns). -/
structure BufferLink where
  buffer_id : String
  create_buffer : Nat
deriving DecidableEq, Repr

/-- `AttributeLink` (owning program ids, referenced buffer id, attribute id,
and the per-location configuration callback tag). -/
structure AttributeLink where
  program_ids : List String
  buffer_id : String
  attribute_id : String
  create_callback : Nat
deriving DecidableEq, Repr

/-- `TextureLink` (`texture_id` plus creation callback, modelled as the
returned `WebGlTexture` handle). -/
structure TextureLink where
  texture_id : String
  create_texture : Nat
deriving DecidableEq, Repr

/-- `FramebufferLink` from `framebuffers/framebuffer_link.rs`: framebuffer id,
optional associated texture id, and the creation callback (modelled as the
`WebGlFramebuffer` handle it returns).  Its `Hash`/`PartialEq` impls compare
`framebuffer_id` only. -/
structure FramebufferLink where
  framebuffer_id : String
  texture_id : Option String
  framebuffer_create_callback : Nat
deriving DecidableEq, Repr

/-- `UniformLink` (owning program ids, uniform id, initialize/update/
should-update callback tags, `use_init_callback_for_update` flag), per the
accessors used in `build_uniform` and the `UniformLinkJs` wrapper. -/
structure UniformLink where
  program_ids : List String
  uniform_id : String
  initialize_callback : Nat
  update_callback : Option Nat
  should_update_callback : Option Nat
  use_init_callback_for_update : Bool
deriving DecidableEq, Repr

/-- `TransformFeedbackLink` (just the id, per `transform_feedback_id()`). -/
structure TransformFeedbackLink where
  transform_feedback_id : String
deriving DecidableEq, Repr

/-- Resolved `Buffer` resource: id plus created `WebGlBuffer` handle. -/
structure Buffer where
  buffer_id : String
  webgl_buffer : Nat
deriving DecidableEq, Repr

/-- Resolved `Texture` resource: id plus created `WebGlTexture` handle. -/
structure Texture where
  texture_id : String
  webgl_texture : Nat
deriving DecidableEq, Repr

/-- Resolved `Framebuffer` resource: id plus created handle. -/
structure Framebuffer where
  framebuffer_id : String
  webgl_framebuffer : Nat
deriving DecidableEq, Repr

/-- Resolved `Attribute` resource, per `Attribute::new` in
`create_attributes`: owning programs, buffer id, attribute id, shared buffer
handle, and the per-program locations. -/
structure Attribute where
  program_ids : List String
  buffer_id : String
  attribute_id : String
  webgl_buffer : Nat
  attribute_locations : List (String × Int)
deriving DecidableEq, Repr

/-- Resolved `Uniform`, per the `Uniform::new` call in `build_uniform`:
owning programs, id, per-program locations, and the three callbacks. -/
structure Uniform where
  program_ids : List String
  uniform_id : String
  uniform_locations : List (String × Nat)
  initialize_callback : Nat
  update_callback : Option Nat
  should_update_callback : Option Nat
deriving DecidableEq, Repr

/-- Association-list model of `std::collections::HashMap` lookup. -/
def lookupAL {α : Type} : List (String × α) → String → Option α
  | [], _ => none
  | (k', v) :: rest, k => if k' = k then some v else lookupAL rest k

/-- Association-list model of `HashMap::insert`: replaces the value if the key
is present, otherwise appends. -/
def insertAL {α : Type} : List (String × α) → String → α → List (String × α)
  | [], k, v => [(k, v)]
  | (k', v') :: rest, k, v =>
    if k' = k then (k, v) :: rest else (k', v') :: insertAL rest k v

/-- Key membership in an association list. -/
def containsKeyAL {α : Type} (l : List (String × α)) (k : String) : Bool :=
  (lookupAL l k).isSome

/-- Model of `std::collections::HashSet::insert` for link sets whose
`Hash`/`PartialEq` compare the link's identifier (`key`): if an element with
an equal key is already present the set is NOT modified (the prior element is
retained and the new one discarded), otherwise the element is added. -/
def insertKeyed {α : Type} (key : α → String) (l : List α) (x : α) : List α :=
  if l.any (fun y => key y = key x) then l else l ++ [x]

/-- Observable build/runtimes events: each creation-callback invocation and
each GPU binding call the framework itself issues, in source order. -/
inductive Event
  | shaderCompiled (ty : ShaderType) (id : String)
  | programLinked (id : String)
  | bufferCreated (id : String) (handle : Nat)
  | bindVertexArray (handle : Option Nat)
  | bindArrayBuffer (handle : Option Nat)
  | enableVertexAttribArray (location : Int)
  | attribCreateCb (attribute_id : String) (program_id : String)
  | useProgram (handle : Option Nat)
  | uniformInit (uniform_id : String) (program_id : String)
  | textureCreated (id : String) (handle : Nat)
  | framebufferCreated (id : String) (texture : Option Nat)
  | tfCreated (id : String)
deriving DecidableEq, Repr

/-- `RendererBuilder` state (write side + intermediate resolution tables). -/
structure RendererBuilder where
  canvas : Option HtmlCanvasElement
  gl : Option WebGl2RenderingContext
  vertex_shader_sources : List (String × String)
  fragment_shader_sources : List (String × String)
  vertex_shaders : List (String × Nat)
  fragment_shaders : List (String × Nat)
  program_links : List ProgramLink
  programs : List (String × Nat)
  uniform_links : List UniformLink
  uniforms : List (String × Uniform)
  buffer_links : List BufferLink
  buffers : List (String × Buffer)
  attribute_links : List AttributeLink
  attributes : List (String × Attribute)
  texture_links : List TextureLink
  textures : List (String × Texture)
  framebuffer_links : List FramebufferLink
  framebuffers : List (String × Framebuffer)
  render_callback : Option Nat
  user_ctx : Option Nat
  vertex_array_objects : List (String × Nat)
  transform_feedback_links : List TransformFeedbackLink
  transform_feedbacks : List (String × Nat)

/-- The built `Renderer`: context handles, all resolved resource tables, the
render callback and user context. -/
structure Renderer where
  canvas : HtmlCanvasElement
  gl : WebGl2RenderingContext
  fragment_shaders : List (String × Nat)
  vertex_shaders : List (String × Nat)
  programs : List (String × Nat)
  render_callback : Nat
  user_ctx : Option Nat
  uniforms : List (String × Uniform)
  buffers : List (String × Buffer)
  textures : List (String × Texture)
  framebuffers : List (String × Framebuffer)
  attributes : List (String × Attribute)
  vertex_array_objects : List (String × Nat)
  transform_feedbacks : List (String × Nat)

/-- `RendererBuilder::default()`: everything empty / absent. -/
def RendererBuilder.new : RendererBuilder where
  canvas := none
  gl := none
  vertex_shader_sources := []
  fragment_shader_sources := []
  vertex_shaders := []
  fragment_shaders := []
  program_links := []
  programs := []
  uniform_links := []
  uniforms := []
  buffer_links := []
  buffers := []
  attribute_links := []
  attributes := []
  texture_links := []
  textures := []
  framebuffer_links := []
  framebuffers := []
  render_callback := none
  user_ctx := none
  vertex_array_objects := []
  transform_feedback_links := []
  transform_feedbacks := []

/-- `RendererBuilder::set_canvas`. -/
def set_canvas (b : RendererBuilder) (c : HtmlCanvasElement) : RendererBuilder :=
  { b with canvas := some c }

/-- `RendererBuilder::add_fragment_shader_src` (HashMap insert: replaces). -/
def add_fragment_shader_src (b : RendererBuilder) (id src : String) : RendererBuilder :=
  { b with fragment_shader_sources := insertAL b.fragment_shader_sources id src }

/-- `RendererBuilder::add_vertex_shader_src` (HashMap insert: replaces). -/
def add_vertex_shader_src (b : RendererBuilder) (id src : String) : RendererBuilder :=
  { b with vertex_shader_sources := insertAL b.vertex_shader_sources id src }

/-- `RendererBuilder::add_program_link` (HashSet insert keyed by program id). -/
def add_program_link (b : RendererBuilder) (pl : ProgramLink) : RendererBuilder :=
  { b with program_links := insertKeyed (fun l => l.program_id) b.program_links pl }

/-- `RendererBuilder::add_uniform_link` (HashSet insert keyed by uniform id). -/
def add_uniform_link (b : RendererBuilder) (ul : UniformLink) : RendererBuilder :=
  { b with uniform_links := insertKeyed (fun l => l.uniform_id) b.uniform_links ul }

/-- `RendererBuilder::add_buffer_link` (HashSet insert keyed by buffer id). -/
def add_buffer_link (b : RendererBuilder) (bl : BufferLink) : RendererBuilder :=
  { b with buffer_links := insertKeyed (fun l => l.buffer_id) b.buffer_links bl }

/-- `RendererBuilder::add_attribute_link` (HashSet insert keyed by attribute id). -/
def add_attribute_link (b : RendererBuilder) (al : AttributeLink) : RendererBuilder :=
  { b with attribute_links := insertKeyed (fun l => l.attribute_id) b.attribute_links al }

/-- `RendererBuilder::add_texture_link` (HashSet insert keyed by texture id). -/
def add_texture_link (b : RendererBuilder) (tl : TextureLink) : RendererBuilder :=
  { b with texture_links := insertKeyed (fun l => l.texture_id) b.texture_links tl }

/-- `RendererBuilder::add_framebuffer_link`: `HashSet::insert` on a set whose
`Hash`/`PartialEq` (in `framebuffer_link.rs`) compare only `framebuffer_id`. -/
def add_framebuffer_link (b : RendererBuilder) (fl : FramebufferLink) : RendererBuilder :=
  { b with framebuffer_links :=
      insertKeyed (fun l => l.framebuffer_id) b.framebuffer_links fl }

/-- `RendererBuilder::add_transform_feedback_link`. -/
def add_transform_feedback_link (b : RendererBuilder) (tl : TransformFeedbackLink) :
    RendererBuilder :=
  { b with transform_feedback_links :=
      insertKeyed (fun l => l.transform_feedback_id) b.transform_feedback_links tl }

/-- `RendererBuilder::set_render_callback` (callback modelled as a tag). -/
def set_render_callback (b : RendererBuilder) (rc : Nat) : RendererBuilder :=
  { b with render_callback := some rc }

/-- `RendererBuilder::set_user_ctx`. -/
def set_user_ctx (b : RendererBuilder) (ctx : Nat) : RendererBuilder :=
  { b with user_ctx := some ctx }

/-- `RendererBuilder::context_from_canvas`: maps the three context-acquisition
failure modes to their errors. -/
def context_from_canvas (c : HtmlCanvasElement) :
    Except RendererBuilderError WebGl2RenderingContext :=
  match c.get_context with
  | ContextAcqResult.apiError => Except.error RendererBuilderError.WebGL2ContextRetrievalError
  | ContextAcqResult.contextNone => Except.error RendererBuilderError.WebGL2ContextNotFoundError
  | ContextAcqResult.typeMismatch => Except.error RendererBuilderError.WebGL2TypeConversionError
  | ContextAcqResult.ok gl => Except.ok gl

/-- `RendererBuilder::save_webgl_context_from_canvas`. -/
def save_webgl_context_from_canvas (b : RendererBuilder) :
    Except RendererBuilderError RendererBuilder :=
  match b.canvas with
  | none => Except.error RendererBuilderError.CanvasReturnedNoContext
  | some c =>
    match context_from_canvas c with
    | Except.error e => Except.error e
    | Except.ok gl => Except.ok { b with gl := some gl }

/-- `RendererBuilder::compile_shader`. -/
def compile_shader (b : RendererBuilder) (shader_type : ShaderType) (source : String) :
    Except RendererBuilderError Nat :=
  match b.gl with
  | none => Except.error RendererBuilderError.NoContextCompileShaderError
  | some gl =>
    match gl.createShader shader_type source with
    | none => Except.error RendererBuilderError.NoShaderReturnedCompilerShaderError
    | some shader =>
      if gl.compileStatus shader then Except.ok shader
      else
        match gl.shaderInfoLog shader with
        | some known_error =>
          Except.error (RendererBuilderError.KnownErrorCompileShaderError known_error)
        | none => Except.error RendererBuilderError.UnknownErrorCompilerShaderError

/-- Loop body shared by `compile_fragment_shaders` / `compile_vertex_shaders`:
compiles each source and inserts the compiled shader under its id. -/
def compileShadersLoop (b : RendererBuilder) (shader_type : ShaderType) :
    List (String × String) → List (String × Nat) →
    Except RendererBuilderError (List (String × Nat) × List Event)
  | [], acc => Except.ok (acc, [])
  | (id, src) :: rest, acc =>
    match compile_shader b shader_type src with
    | Except.error e => Except.error e
    | Except.ok shader =>
      match compileShadersLoop b shader_type rest (insertAL acc id shader) with
      | Except.error e => Except.error e
      | Except.ok (m, t) => Except.ok (m, Event.shaderCompiled shader_type id :: t)

/-- `RendererBuilder::compile_fragment_shaders`. -/
def compile_fragment_shaders (b : RendererBuilder) :
    Except RendererBuilderError (RendererBuilder × List Event) :=
  match compileShadersLoop b ShaderType.FragmentShader
      b.fragment_shader_sources b.fragment_shaders with
  | Except.error e => Except.error e
  | Except.ok (m, t) => Except.ok ({ b with fragment_shaders := m }, t)

/-- `RendererBuilder::compile_vertex_shaders`. -/
def compile_vertex_shaders (b : RendererBuilder) :
    Except RendererBuilderError (RendererBuilder × List Event) :=
  match compileShadersLoop b ShaderType.VertexShader
      b.vertex_shader_sources b.vertex_shaders with
  | Except.error e => Except.error e
  | Except.ok (m, t) => Except.ok ({ b with vertex_shaders := m }, t)

/-- `RendererBuilder::link_program`: shader lookups, program-creation callback
(which may fail), and VAO allocation. -/
def link_program (b : RendererBuilder) (pl : ProgramLink) :
    Except RendererBuilderError (Nat × Nat) :=
  match b.gl with
  | none => Except.error RendererBuilderError.NoContextLinkProgramError
  | some gl =>
    match lookupAL b.vertex_shaders pl.vertex_shader_id with
    | none => Except.error RendererBuilderError.VertexShaderNotFoundLinkProgramError
    | some _vs =>
      match lookupAL b.fragment_shaders pl.fragment_shader_id with
      | none => Except.error RendererBuilderError.FragmentShaderNotFoundLinkProgramError
      | some _fs =>
        match pl.program_create_callback with
        | Except.error err =>
          Except.error (RendererBuilderError.CreateProgramLinkProgramError err)
        | Except.ok program =>
          match gl.createVertexArray with
          | none => Except.error RendererBuilderError.NoVaoLinkProgramError
          | some vao => Except.ok (program, vao)

/-- Loop of `RendererBuilder::link_programs`: links each program link and
records program and VAO under the program id. -/
def linkProgramsLoop (b : RendererBuilder) :
    List ProgramLink → List (String × Nat) → List (String × Nat) →
    Except RendererBuilderError (List (String × Nat) × List (String × Nat) × List Event)
  | [], progs, vaos => Except.ok (progs, vaos, [])
  | pl :: rest, progs, vaos =>
    match link_program b pl with
    | Except.error e => Except.error e
    | Except.ok (program, vao) =>
      match linkProgramsLoop b rest (insertAL progs pl.program_id program)
          (insertAL vaos pl.program_id vao) with
      | Except.error e => Except.error e
      | Except.ok (ps, vs, t) => Except.ok (ps, vs, Event.programLinked pl.program_id :: t)

/-- `RendererBuilder::link_programs`. -/
def link_programs (b : RendererBuilder) :
    Except RendererBuilderError (RendererBuilder × List Event) :=
  match linkProgramsLoop b b.program_links b.programs b.vertex_array_objects with
  | Except.error e => Except.error e
  | Except.ok (ps, vs, t) =>
    Except.ok ({ b with programs := ps, vertex_array_objects := vs }, t)

/-- Loop of `RendererBuilder::create_buffers`: invokes each buffer link's
creation callback and records the `Buffer`. -/
def createBuffersLoop :
    List BufferLink → List (String × Buffer) → List (String × Buffer) × List Event
  | [], acc => (acc, [])
  | bl :: rest, acc =>
    let buffer : Buffer := { buffer_id := bl.buffer_id, webgl_buffer := bl.create_buffer }
    let (m, t) := createBuffersLoop rest (insertAL acc bl.buffer_id buffer)
    (m, Event.bufferCreated bl.buffer_id bl.create_buffer :: t)

/-- `RendererBuilder::create_buffers`.  NOTE: the source reports a missing
context here with `NoContextCreateAttributeError` (renderer.rs line 798). -/
def create_buffers (b : RendererBuilder) :
    Except RendererBuilderError (RendererBuilder × List Event) :=
  match b.gl with
  | none => Except.error RendererBuilderError.NoContextCreateAttributeError
  | some _gl =>
    let (m, t) := createBuffersLoop b.buffer_links b.buffers
    Except.ok ({ b with buffers := m }, t)

/-- Inner loop of `RendererBuilder::create_attributes` over the owning program
ids of one attribute link: resolves program and VAO, looks up the attribute
location by name (`-1` is the not-found sentinel), records it, then binds the
VAO and buffer, enables the slot, invokes the creation callback and unbinds. -/
def attributeProgramsLoop (programs vaos : List (String × Nat))
    (gl : WebGl2RenderingContext)
    (attribute_id : String) (webgl_buffer : Nat) :
    List String → List (String × Int) →
    Except RendererBuilderError (List (String × Int) × List Event)
  | [], locs => Except.ok (locs, [])
  | program_id :: rest, locs =>
    match lookupAL programs program_id with
    | none => Except.error RendererBuilderError.ProgramNotFoundCreateAttributeError
    | some _program =>
      match lookupAL vaos program_id with
      | none => Except.error RendererBuilderError.VAONotFoundCreateAttributeError
      | some vao =>
        if gl.getAttribLocation _program attribute_id = -1 then
          Except.error RendererBuilderError.AttributeLocationNotFoundCreateAttributeError
        else
          match attributeProgramsLoop programs vaos gl attribute_id webgl_buffer rest
              (insertAL locs program_id (gl.getAttribLocation _program attribute_id)) with
          | Except.error e => Except.error e
          | Except.ok (m, t) =>
            Except.ok (m,
              Event.bindVertexArray (some vao) ::
              Event.bindArrayBuffer (some webgl_buffer) ::
              Event.enableVertexAttribArray (gl.getAttribLocation _program attribute_id) ::
              Event.attribCreateCb attribute_id program_id ::
              Event.bindVertexArray none ::
              Event.bindArrayBuffer none :: t)

/-- Outer loop of `RendererBuilder::create_attributes` over attribute links:
resolves the shared buffer, runs the per-program loop, and records the
resolved `Attribute`. -/
def createAttributesLoop (programs vaos : List (String × Nat))
    (buffers : List (String × Buffer)) (gl : WebGl2RenderingContext) :
    List AttributeLink → List (String × Attribute) →
    Except RendererBuilderError (List (String × Attribute) × List Event)
  | [], acc => Except.ok (acc, [])
  | al :: rest, acc =>
    match lookupAL buffers al.buffer_id with
    | none => Except.error RendererBuilderError.BufferNotFoundCreateAttributeError
    | some buffer =>
      match attributeProgramsLoop programs vaos gl al.attribute_id buffer.webgl_buffer
          al.program_ids [] with
      | Except.error e => Except.error e
      | Except.ok (locs, t1) =>
        match createAttributesLoop programs vaos buffers gl rest (insertAL acc al.attribute_id
            { program_ids := al.program_ids, buffer_id := al.buffer_id,
              attribute_id := al.attribute_id, webgl_buffer := buffer.webgl_buffer,
              attribute_locations := locs }) with
        | Except.error e => Except.error e
        | Except.ok (m, t2) => Except.ok (m, t1 ++ t2)

/-- `RendererBuilder::create_attributes`. -/
def create_attributes (b : RendererBuilder) :
    Except RendererBuilderError (RendererBuilder × List Event) :=
  match b.gl with
  | none => Except.error RendererBuilderError.NoContextCreateAttributeError
  | some gl =>
    match createAttributesLoop b.programs b.vertex_array_objects b.buffers gl
        b.attribute_links b.attributes with
    | Except.error e => Except.error e
    | Except.ok (m, t) => Except.ok ({ b with attributes := m }, t)

/-- Per-program loop of `RendererBuilder::build_uniform`: resolves the owning
program (error if absent), activates it, resolves the uniform location by name
(error if absent), invokes the initialize callback, records the location for
that program, then deactivates the program. -/
def uniformProgramsLoop (programs : List (String × Nat))
    (gl : WebGl2RenderingContext) (uniform_id : String) :
    List String → List (String × Nat) →
    Except RendererBuilderError (List (String × Nat) × List Event)
  | [], locs => Except.ok (locs, [])
  | program_id :: rest, locs =>
    match lookupAL programs program_id with
    | none => Except.error RendererBuilderError.ProgramNotFoundBuildUniformsError
    | some program =>
      match gl.getUniformLocation program uniform_id with
      | none =>
        Except.error (RendererBuilderError.UniformLocationNotFoundBuildUniformsError uniform_id)
      | some loc =>
        match uniformProgramsLoop programs gl uniform_id rest
            (insertAL locs program_id loc) with
        | Except.error e => Except.error e
        | Except.ok (m, t) =>
          Except.ok (m,
            Event.useProgram (some program) ::
            Event.uniformInit uniform_id program_id ::
            Event.useProgram none :: t)

/-- `RendererBuilder::build_uniform`. -/
def build_uniform (b : RendererBuilder) (ul : UniformLink) :
    Except RendererBuilderError (Uniform × List Event) :=
  match b.gl with
  | none => Except.error RendererBuilderError.NoContextBuildUniformsError
  | some gl =>
    match uniformProgramsLoop b.programs gl ul.uniform_id ul.program_ids [] with
    | Except.error e => Except.error e
    | Except.ok (locs, t) =>
      Except.ok
        ({ program_ids := ul.program_ids, uniform_id := ul.uniform_id,
           uniform_locations := locs, initialize_callback := ul.initialize_callback,
           update_callback := ul.update_callback,
           should_update_callback := ul.should_update_callback }, t)

/-- Loop of `RendererBuilder::build_uniforms` over uniform links. -/
def buildUniformsLoop (b : RendererBuilder) :
    List UniformLink → List (String × Uniform) →
    Except RendererBuilderError (List (String × Uniform) × List Event)
  | [], acc => Except.ok (acc, [])
  | ul :: rest, acc =>
    match build_uniform b ul with
    | Except.error e => Except.error e
    | Except.ok (u, t1) =>
      match buildUniformsLoop b rest (insertAL acc ul.uniform_id u) with
      | Except.error e => Except.error e
      | Except.ok (m, t2) => Except.ok (m, t1 ++ t2)

/-- `RendererBuilder::build_uniforms`. -/
def build_uniforms (b : RendererBuilder) :
    Except RendererBuilderError (RendererBuilder × List Event) :=
  match buildUniformsLoop b b.uniform_links b.uniforms with
  | Except.error e => Except.error e
  | Except.ok (m, t) => Except.ok ({ b with uniforms := m }, t)

/-- Loop of `RendererBuilder::create_textures`. -/
def createTexturesLoop :
    List TextureLink → List (String × Texture) → List (String × Texture) × List Event
  | [], acc => (acc, [])
  | tl :: rest, acc =>
    let texture : Texture := { texture_id := tl.texture_id, webgl_texture := tl.create_texture }
    let (m, t) := createTexturesLoop rest (insertAL acc tl.texture_id texture)
    (m, Event.textureCreated tl.texture_id tl.create_texture :: t)

/-- `RendererBuilder::create_textures`. -/
def create_textures (b : RendererBuilder) :
    Except RendererBuilderError (RendererBuilder × List Event) :=
  match b.gl with
  | none => Except.error RendererBuilderError.NoContextCreateTextureError
  | some _gl =>
    let (m, t) := createTexturesLoop b.texture_links b.textures
    Except.ok ({ b with textures := m }, t)

/-- The texture handle passed to a framebuffer link's creation callback:
`framebuffer_link.texture_id().and_then(|tid| self.textures.get(&tid))`
followed by projecting the `WebGlTexture` — an unresolvable texture id
silently yields `None`. -/
def resolveFramebufferTexture (textures : List (String × Texture))
    (texture_id : Option String) : Option Nat :=
  match texture_id with
  | none => none
  | some tid =>
    match lookupAL textures tid with
    | none => none
    | some texture => some texture.webgl_texture

/-- Loop of `RendererBuilder::create_framebuffers`: resolves the optional
texture, invokes the creation callback with it, records the `Framebuffer`. -/
def createFramebuffersLoop (textures : List (String × Texture)) :
    List FramebufferLink → List (String × Framebuffer) →
    List (String × Framebuffer) × List Event
  | [], acc => (acc, [])
  | fl :: rest, acc =>
    let webgl_texture := resolveFramebufferTexture textures fl.texture_id
    let framebuffer : Framebuffer :=
      { framebuffer_id := fl.framebuffer_id,
        webgl_framebuffer := fl.framebuffer_create_callback }
    let (m, t) := createFramebuffersLoop textures rest
      (insertAL acc fl.framebuffer_id framebuffer)
    (m, Event.framebufferCreated fl.framebuffer_id webgl_texture :: t)

/-- `RendererBuilder::create_framebuffers`. -/
def create_framebuffers (b : RendererBuilder) :
    Except RendererBuilderError (RendererBuilder × List Event) :=
  match b.gl with
  | none => Except.error RendererBuilderError.NoContextCreateFramebufferError
  | some _gl =>
    let (m, t) := createFramebuffersLoop b.textures b.framebuffer_links b.framebuffers
    Except.ok ({ b with framebuffers := m }, t)

/-- Loop of `RendererBuilder::create_transform_feedbacks`: each iteration asks
the context for a transform feedback object (error if `None` is returned). -/
def createTransformFeedbacksLoop (gl : WebGl2RenderingContext) :
    List TransformFeedbackLink → List (String × Nat) →
    Except RendererBuilderError (List (String × Nat) × List Event)
  | [], acc => Except.ok (acc, [])
  | tl :: rest, acc =>
    match gl.createTransformFeedback with
    | none =>
      Except.error RendererBuilderError.TransformFeedbackNotFoundTransformFeedbackError
    | some handle =>
      match createTransformFeedbacksLoop gl rest
          (insertAL acc tl.transform_feedback_id handle) with
      | Except.error e => Except.error e
      | Except.ok (m, t) => Except.ok (m, Event.tfCreated tl.transform_feedback_id :: t)

/-- `RendererBuilder::create_transform_feedbacks`. -/
def create_transform_feedbacks (b : RendererBuilder) :
    Except RendererBuilderError (RendererBuilder × List Event) :=
  match b.gl with
  | none => Except.error RendererBuilderError.NoContextBuildTransformFeedbackError
  | some gl =>
    match createTransformFeedbacksLoop gl b.transform_feedback_links b.transform_feedbacks with
    | Except.error e => Except.error e
    | Except.ok (m, t) => Except.ok ({ b with transform_feedbacks := m }, t)

/-- `RendererBuilder::build`: the resolution pipeline in source order
(renderer.rs lines 594-628), followed by the structural checks on canvas,
context and render callback.  Returns the renderer and the full event trace. -/
def build (b : RendererBuilder) :
    Except RendererBuilderError (Renderer × List Event) :=
  match save_webgl_context_from_canvas b with
  | Except.error e => Except.error e
  | Except.ok b1 =>
    match compile_fragment_shaders b1 with
    | Except.error e => Except.error e
    | Except.ok (b2, t2) =>
      match compile_vertex_shaders b2 with
      | Except.error e => Except.error e
      | Except.ok (b3, t3) =>
        match link_programs b3 with
        | Except.error e => Except.error e
        | Except.ok (b4, t4) =>
          match create_buffers b4 with
          | Except.error e => Except.error e
          | Except.ok (b5, t5) =>
            match create_attributes b5 with
            | Except.error e => Except.error e
            | Except.ok (b6, t6) =>
              match build_uniforms b6 with
              | Except.error e => Except.error e
              | Except.ok (b7, t7) =>
                match create_textures b7 with
                | Except.error e => Except.error e
                | Except.ok (b8, t8) =>
                  match create_framebuffers b8 with
                  | Except.error e => Except.error e
                  | Except.ok (b9, t9) =>
                    match create_transform_feedbacks b9 with
                    | Except.error e => Except.error e
                    | Except.ok (b10, t10) =>
                      match b10.canvas with
                      | none => Except.error RendererBuilderError.NoCanvasBuildError
                      | some canvas =>
                        match b10.gl with
                        | none => Except.error RendererBuilderError.NoContextBuildError
                        | some gl =>
                          match b10.render_callback with
                          | none =>
                            Except.error RendererBuilderError.NoRenderCallbackBuildError
                          | some rc =>
                            Except.ok
                              ({ canvas := canvas, gl := gl,
                                 fragment_shaders := b10.fragment_shaders,
                                 vertex_shaders := b10.vertex_shaders,
                                 programs := b10.programs,
                                 render_callback := rc,
                                 user_ctx := b10.user_ctx,
                                 uniforms := b10.uniforms,
                                 buffers := b10.buffers,
                                 textures := b10.textures,
                                 framebuffers := b10.framebuffers,
                                 attributes := b10.attributes,
                                 vertex_array_objects := b10.vertex_array_objects,
                                 transform_feedbacks := b10.transform_feedbacks },
                               t2 ++ t3 ++ t4 ++ t5 ++ t6 ++ t7 ++ t8 ++ t9 ++ t10)

/-- `Renderer::use_program_with_vao`: resolves the program and its VAO with
`.expect(..)` — `none` models the abort (panic) on an unregistered id; on
success it issues `use_program(Some ..)` and `bind_vertex_array(Some ..)`. -/
def use_program_with_vao (r : Renderer) (program_id : String) : Option (List Event) :=
  match lookupAL r.programs program_id with
  | none => none
  | some program =>
    match lookupAL r.vertex_array_objects program_id with
    | none => none
    | some vao =>
      some [Event.useProgram (some program), Event.bindVertexArray (some vao)]

/-- `Renderer::update_uniform`: resolves the uniform with `.expect(..)` —
`none` models the abort (panic) on an unregistered id.  (The subsequent
`Uniform::update` dispatch lives in `uniforms/uniform.rs`, which is not under
`src/`; only the lookup/abort behaviour, which is in `renderer.rs`, is
modelled — the resolved `Uniform` is returned.) -/
def update_uniform (r : Renderer) (uniform_id : String) : Option Uniform :=
  lookupAL r.uniforms uniform_id

/-- GPU binding state relevant to the build: the active program, the bound
vertex array object and the bound `ARRAY_BUFFER`. -/
structure GLState where
  current_program : Option Nat
  bound_vertex_array : Option Nat
  bound_array_buffer : Option Nat
deriving DecidableEq, Repr

/-- Effect of one trace event on the GPU binding state. -/
def applyEvent (s : GLState) : Event → GLState
  | Event.useProgram h => { s with current_program := h }
  | Event.bindVertexArray h => { s with bound_vertex_array := h }
  | Event.bindArrayBuffer h => { s with bound_array_buffer := h }
  | _ => s

/-- Run a trace of events over a binding state. -/
def runEvents (s : GLState) (t : List Event) : GLState :=
  t.foldl applyEvent s

/-- Stage index of an event in the build pipeline, in the order the source's
`build` executes the stages. -/
def stageRank : Event → Nat
  | Event.shaderCompiled ShaderType.FragmentShader _ => 1
  | Event.shaderCompiled ShaderType.VertexShader _ => 2
  | Event.programLinked _ => 3
  | Event.bufferCreated _ _ => 4
  | Event.bindVertexArray _ => 5
  | Event.bindArrayBuffer _ => 5
  | Event.enableVertexAttribArray _ => 5
  | Event.attribCreateCb _ _ => 5
  | Event.useProgram _ => 6
  | Event.uniformInit _ _ => 6
  | Event.textureCreated _ _ => 7
  | Event.framebufferCreated _ _ => 8
  | Event.tfCreated _ => 9

/-- Number of uniform-initialize-callback invocations recorded in a trace. -/
def countUniformInits (t : List Event) : Nat :=
  (t.filter (fun e =>
    match e with
    | Event.uniformInit _ _ => true
    | _ => false)).length

/-- Modelled from the spec: the animation lifecycle state machine of §4.5 —
the `AnimationHandle` implementation itself is not under `src/`.  `animating`
is the Idle/Animating flag; `pending_frame` records whether a repeating frame
registration is pending with the host scheduler; `callback_invocations` counts
invocations of the stored animation callback.  Per the spec,
`start_animating()` transitions Idle→Animating and registers a repeating
frame callback (no-op if already animating); `stop_animating()` cancels the
pending frame registration and transitions back to Idle (no-op from Idle);
each host frame tick invokes the pending callback, which re-registers itself
and invokes the animation callback. -/
structure AnimationWorld where
  animating : Bool
  pending_frame : Bool
  callback_invocations : Nat
deriving DecidableEq, Repr

/-- Modelled from the spec: a freshly created animation handle — Idle, no
pending frame registration, callback never invoked. -/
def AnimationWorld.new : AnimationWorld :=
  { animating := false, pending_frame := false, callback_invocations := 0 }

/-- Modelled from the spec: `start_animating()` (no-op when already
animating; otherwise registers a repeating frame callback). -/
def start_animating (w : AnimationWorld) : AnimationWorld :=
  if w.animating then w
  else { w with animating := true, pending_frame := true }

/-- Modelled from the spec: `stop_animating()` (cancels the pending frame
registration; Animating→Idle; safe from Idle). -/
def stop_animating (w : AnimationWorld) : AnimationWorld :=
  { w with animating := false, pending_frame := false }

/-- Modelled from the spec: one host frame tick — if a frame registration is
pending, its callback runs: it re-registers itself for the next frame and
invokes the animation callback once. -/
def frame_tick (w : AnimationWorld) : AnimationWorld :=
  if w.pending_frame then
    { w with callback_invocations := w.callback_invocations + 1, pending_frame := true }
  else w

/-- `n` successive host frame ticks. -/
def frame_ticks (w : AnimationWorld) : Nat → AnimationWorld
  | 0 => w
  | n + 1 => frame_ticks (frame_tick w) n

/-- A context whose every operation succeeds, for concrete instantiations. -/
def glOk : WebGl2RenderingContext where
  createShader := fun _ _ => some 1
  compileStatus := fun _ => true
  shaderInfoLog := fun _ => none
  createVertexArray := some 2
  getAttribLocation := fun _ _ => 0
  getUniformLocation := fun _ _ => some 3
  createTransformFeedback := some 4

/-- A canvas whose context acquisition succeeds with `glOk`. -/
def canvasOk : HtmlCanvasElement :=
  { get_context := ContextAcqResult.ok glOk }

/-- A vacuous renderer used only as the fallback of `buildRenderer`. -/
def trivialRenderer : Renderer :=
  { canvas := canvasOk, gl := glOk, fragment_shaders := [], vertex_shaders := [],
    programs := [], render_callback := 0, user_ctx := none, uniforms := [],
    buffers := [], textures := [], framebuffers := [], attributes := [],
    vertex_array_objects := [], transform_feedbacks := [] }

/-- The renderer a successful `build` yields (fallback value on error). -/
def buildRenderer (b : RendererBuilder) : Renderer :=
  match build b with
  | Except.ok (r, _) => r
  | Except.error _ => trivialRenderer

/-- The event trace a successful `build` yields (empty on error). -/
def buildTrace (b : RendererBuilder) : List Event :=
  match build b with
  | Except.ok (_, t) => t
  | Except.error _ => []

/-- Concrete builder: one fragment/vertex shader pair, one program, one
uniform owned by that program, and one texture — everything resolvable. -/
def exStagesBuilder : RendererBuilder :=
  set_render_callback
    (add_texture_link
      (add_uniform_link
        (add_program_link
          (add_vertex_shader_src
            (add_fragment_shader_src
              (set_canvas RendererBuilder.new canvasOk) "fs" "fsrc")
            "vs" "vsrc")
          { program_id := "prog", vertex_shader_id := "vs", fragment_shader_id := "fs",
            transform_feedback_varyings := [], program_create_callback := Except.ok 10 })
        { program_ids := ["prog"], uniform_id := "u", initialize_callback := 1,
          update_callback := none, should_update_callback := none,
          use_init_callback_for_update := false })
      { texture_id := "tex", create_texture := 20 })
    0

/-- Concrete builder registering two framebuffer links with the same
identifier `"fb"` but different creation callbacks (tags 1 and 2). -/
def exReAddBuilder : RendererBuilder :=
  set_render_callback
    (add_framebuffer_link
      (add_framebuffer_link
        (set_canvas RendererBuilder.new canvasOk)
        { framebuffer_id := "fb", texture_id := none, framebuffer_create_callback := 1 })
      { framebuffer_id := "fb", texture_id := none, framebuffer_create_callback := 2 })
    0

/-- Concrete builder with a single framebuffer link that declares texture id
`"t"`, while no texture link is ever registered. -/
def exDanglingTexBuilder : RendererBuilder :=
  set_render_callback
    (add_framebuffer_link
      (set_canvas RendererBuilder.new canvasOk)
      { framebuffer_id := "fb", texture_id := some "t", framebuffer_create_callback := 9 })
    0

/-! ### Association-list lemmas -/

theorem lookupAL_insertAL {α : Type} (l : List (String × α)) (k k' : String) (v : α) :
    lookupAL (insertAL l k v) k' = if k = k' then some v else lookupAL l k' := by
  induction l with
  | nil =>
    by_cases h : k = k' <;> simp [insertAL, lookupAL, h]
  | cons hd tl ih =>
    obtain ⟨k0, v0⟩ := hd
    by_cases h0 : k0 = k
    · subst h0
      by_cases h : k0 = k' <;> simp [insertAL, lookupAL, h]
    · by_cases h : k0 = k'
      · subst h
        have hkk' : ¬k = k0 := fun hc => h0 hc.symm
        simp [insertAL, lookupAL, h0, hkk']
      · simp [insertAL, lookupAL, h0, h, ih]

theorem containsKeyAL_insertAL {α : Type} (l : List (String × α)) (k k' : String) (v : α) :
    containsKeyAL (insertAL l k v) k' = (containsKeyAL l k' || (k = k')) := by
  by_cases h : k = k' <;>
    simp [containsKeyAL, lookupAL_insertAL, h]

theorem containsKeyAL_mono_insertAL {α : Type} {l : List (String × α)} {k' : String}
    (k : String) (v : α) (h : containsKeyAL l k' = true) :
    containsKeyAL (insertAL l k v) k' = true := by
  simp [containsKeyAL_insertAL, h]

theorem length_insertAL {α : Type} (l : List (String × α)) (k : String) (v : α) :
    (insertAL l k v).length =
      (if containsKeyAL l k = true then l.length else l.length + 1) := by
  induction l with
  | nil => simp [insertAL, containsKeyAL, lookupAL]
  | cons hd tl ih =>
    obtain ⟨k0, v0⟩ := hd
    simp only [containsKeyAL] at ih ⊢
    by_cases h0 : k0 = k
    · simp [insertAL, lookupAL, h0]
    · by_cases h1 : (lookupAL tl k).isSome = true
      · simp [insertAL, lookupAL, h0, ih, h1]
      · simp [insertAL, lookupAL, h0, ih, h1]

/-! ### `insertKeyed` (HashSet insert) lemma -/

theorem insertKeyed_same_key {α : Type} (key : α → String) (l : List α) (x y : α)
    (h : key x = key y) :
    insertKeyed key (insertKeyed key l x) y = insertKeyed key l x := by
  by_cases hc : l.any (fun z => key z = key x)
  · have hx : insertKeyed key l x = l := by simp [insertKeyed, hc]
    rw [hx]
    have hc' : l.any (fun z => key z = key y) := by
      rcases List.any_eq_true.mp hc with ⟨z, hz, hkz⟩
      refine List.any_eq_true.mpr ⟨z, hz, ?_⟩
      simp only [decide_eq_true_eq] at hkz ⊢
      rw [hkz, h]
    simp [insertKeyed, hc']
  · have hx : insertKeyed key l x = l ++ [x] := by
      simp only [insertKeyed, if_neg hc]
    rw [hx]
    have hc' : (l ++ [x]).any (fun z => key z = key y) := by
      refine List.any_eq_true.mpr ⟨x, by simp, ?_⟩
      simp [h]
    simp [insertKeyed, hc']

/-! ### Stage characterizations -/

theorem save_webgl_context_ok {b b1 : RendererBuilder}
    (h : save_webgl_context_from_canvas b = Except.ok b1) :
    ∃ c gl0, b.canvas = some c ∧ context_from_canvas c = Except.ok gl0 ∧
      b1 = { b with gl := some gl0 } := by
  unfold save_webgl_context_from_canvas at h
  split at h
  next => cases h
  next c hc =>
  split at h
  next => cases h
  next gl0 hg =>
  cases h
  exact ⟨c, gl0, hc, hg, rfl⟩

theorem compile_fragment_shaders_ok {b b' : RendererBuilder} {t : List Event}
    (h : compile_fragment_shaders b = Except.ok (b', t)) :
    ∃ m, compileShadersLoop b ShaderType.FragmentShader
        b.fragment_shader_sources b.fragment_shaders = Except.ok (m, t) ∧
      b' = { b with fragment_shaders := m } := by
  unfold compile_fragment_shaders at h
  split at h
  next => cases h
  next m t0 hl =>
  cases h
  exact ⟨m, hl, rfl⟩

theorem compile_vertex_shaders_ok {b b' : RendererBuilder} {t : List Event}
    (h : compile_vertex_shaders b = Except.ok (b', t)) :
    ∃ m, compileShadersLoop b ShaderType.VertexShader
        b.vertex_shader_sources b.vertex_shaders = Except.ok (m, t) ∧
      b' = { b with vertex_shaders := m } := by
  unfold compile_vertex_shaders at h
  split at h
  next => cases h
  next m t0 hl =>
  cases h
  exact ⟨m, hl, rfl⟩

theorem link_programs_ok {b b' : RendererBuilder} {t : List Event}
    (h : link_programs b = Except.ok (b', t)) :
    ∃ ps vs, linkProgramsLoop b b.program_links b.programs b.vertex_array_objects =
        Except.ok (ps, vs, t) ∧
      b' = { b with programs := ps, vertex_array_objects := vs } := by
  unfold link_programs at h
  split at h
  next => cases h
  next ps vs t0 hl =>
  cases h
  exact ⟨ps, vs, hl, rfl⟩

theorem create_buffers_ok {b b' : RendererBuilder} {t : List Event}
    (h : create_buffers b = Except.ok (b', t)) :
    ∃ gl m, b.gl = some gl ∧ createBuffersLoop b.buffer_links b.buffers = (m, t) ∧
      b' = { b with buffers := m } := by
  unfold create_buffers at h
  split at h
  next => cases h
  next gl hg =>
  cases h
  exact ⟨gl, (createBuffersLoop b.buffer_links b.buffers).1, hg,
    rfl, rfl⟩

theorem create_attributes_ok {b b' : RendererBuilder} {t : List Event}
    (h : create_attributes b = Except.ok (b', t)) :
    ∃ gl m, b.gl = some gl ∧
      createAttributesLoop b.programs b.vertex_array_objects b.buffers gl
        b.attribute_links b.attributes = Except.ok (m, t) ∧
      b' = { b with attributes := m } := by
  unfold create_attributes at h
  split at h
  next => cases h
  next gl hg =>
  split at h
  next => cases h
  next m t0 hl =>
  cases h
  exact ⟨gl, m, hg, hl, rfl⟩

theorem build_uniforms_ok {b b' : RendererBuilder} {t : List Event}
    (h : build_uniforms b = Except.ok (b', t)) :
    ∃ m, buildUniformsLoop b b.uniform_links b.uniforms = Except.ok (m, t) ∧
      b' = { b with uniforms := m } := by
  unfold build_uniforms at h
  split at h
  next => cases h
  next m t0 hl =>
  cases h
  exact ⟨m, hl, rfl⟩

theorem create_textures_ok {b b' : RendererBuilder} {t : List Event}
    (h : create_textures b = Except.ok (b', t)) :
    ∃ gl m, b.gl = some gl ∧ createTexturesLoop b.texture_links b.textures = (m, t) ∧
      b' = { b with textures := m } := by
  unfold create_textures at h
  split at h
  next => cases h
  next gl hg =>
  cases h
  exact ⟨gl, (createTexturesLoop b.texture_links b.textures).1, hg, rfl, rfl⟩

theorem create_framebuffers_ok {b b' : RendererBuilder} {t : List Event}
    (h : create_framebuffers b = Except.ok (b', t)) :
    ∃ gl m, b.gl = some gl ∧
      createFramebuffersLoop b.textures b.framebuffer_links b.framebuffers = (m, t) ∧
      b' = { b with framebuffers := m } := by
  unfold create_framebuffers at h
  split at h
  next => cases h
  next gl hg =>
  cases h
  exact ⟨gl, (createFramebuffersLoop b.textures b.framebuffer_links b.framebuffers).1,
    hg, rfl, rfl⟩

theorem create_transform_feedbacks_ok {b b' : RendererBuilder} {t : List Event}
    (h : create_transform_feedbacks b = Except.ok (b', t)) :
    ∃ gl m, b.gl = some gl ∧
      createTransformFeedbacksLoop gl b.transform_feedback_links b.transform_feedbacks =
        Except.ok (m, t) ∧
      b' = { b with transform_feedbacks := m } := by
  unfold create_transform_feedbacks at h
  split at h
  next => cases h
  next gl hg =>
  split at h
  next => cases h
  next m t0 hl =>
  cases h
  exact ⟨gl, m, hg, hl, rfl⟩

/-- Decomposition of a successful `build` into its ten stages, in source
order, plus the final structural checks and the trace concatenation. -/
theorem build_ok_decomp {b : RendererBuilder} {r : Renderer} {t : List Event}
    (h : build b = Except.ok (r, t)) :
    ∃ b1 b2 b3 b4 b5 b6 b7 b8 b9 b10 t2 t3 t4 t5 t6 t7 t8 t9 t10 canvas gl rc,
      save_webgl_context_from_canvas b = Except.ok b1 ∧
      compile_fragment_shaders b1 = Except.ok (b2, t2) ∧
      compile_vertex_shaders b2 = Except.ok (b3, t3) ∧
      link_programs b3 = Except.ok (b4, t4) ∧
      create_buffers b4 = Except.ok (b5, t5) ∧
      create_attributes b5 = Except.ok (b6, t6) ∧
      build_uniforms b6 = Except.ok (b7, t7) ∧
      create_textures b7 = Except.ok (b8, t8) ∧
      create_framebuffers b8 = Except.ok (b9, t9) ∧
      create_transform_feedbacks b9 = Except.ok (b10, t10) ∧
      b10.canvas = some canvas ∧ b10.gl = some gl ∧ b10.render_callback = some rc ∧
      r = { canvas := canvas, gl := gl,
            fragment_shaders := b10.fragment_shaders,
            vertex_shaders := b10.vertex_shaders,
            programs := b10.programs,
            render_callback := rc,
            user_ctx := b10.user_ctx,
            uniforms := b10.uniforms,
            buffers := b10.buffers,
            textures := b10.textures,
            framebuffers := b10.framebuffers,
            attributes := b10.attributes,
            vertex_array_objects := b10.vertex_array_objects,
            transform_feedbacks := b10.transform_feedbacks } ∧
      t = t2 ++ t3 ++ t4 ++ t5 ++ t6 ++ t7 ++ t8 ++ t9 ++ t10 := by
  unfold build at h
  split at h
  next => cases h
  next b1 h1 =>
  split at h
  next => cases h
  next b2 t2 h2 =>
  split at h
  next => cases h
  next b3 t3 h3 =>
  split at h
  next => cases h
  next b4 t4 h4 =>
  split at h
  next => cases h
  next b5 t5 h5 =>
  split at h
  next => cases h
  next b6 t6 h6 =>
  split at h
  next => cases h
  next b7 t7 h7 =>
  split at h
  next => cases h
  next b8 t8 h8 =>
  split at h
  next => cases h
  next b9 t9 h9 =>
  split at h
  next => cases h
  next b10 t10 h10 =>
  split at h
  next => cases h
  next canvas hc =>
  split at h
  next => cases h
  next gl hg =>
  split at h
  next => cases h
  next rc hrc =>
  cases h
  exact ⟨b1, b2, b3, b4, b5, b6, b7, b8, b9, b10, t2, t3, t4, t5, t6, t7, t8, t9, t10,
    canvas, gl, rc, h1, h2, h3, h4, h5, h6, h7, h8, h9, h10, hc, hg, hrc, rfl, rfl⟩

/-! ### Loop lemmas: table keys and event shapes -/

theorem compileShadersLoop_keys {b : RendererBuilder} {ty : ShaderType} :
    ∀ (sources : List (String × String)) (acc m : List (String × Nat)) (t : List Event),
      compileShadersLoop b ty sources acc = Except.ok (m, t) →
      ∀ k, containsKeyAL m k = true ↔
        (containsKeyAL acc k = true ∨ k ∈ sources.map Prod.fst) := by
  intro sources
  induction sources with
  | nil =>
    intro acc m t h k
    unfold compileShadersLoop at h
    cases h
    simp
  | cons hd rest ih =>
    intro acc m t h k
    obtain ⟨id, src⟩ := hd
    unfold compileShadersLoop at h
    split at h
    next => cases h
    next shader hs =>
    split at h
    next => cases h
    next m0 t0 hl =>
    cases h
    rw [ih _ _ _ hl k]
    simp [containsKeyAL_insertAL]
    tauto

theorem compileShadersLoop_events {b : RendererBuilder} {ty : ShaderType} :
    ∀ (sources : List (String × String)) (acc m : List (String × Nat)) (t : List Event),
      compileShadersLoop b ty sources acc = Except.ok (m, t) →
      ∀ e ∈ t, ∃ id, e = Event.shaderCompiled ty id := by
  intro sources
  induction sources with
  | nil =>
    intro acc m t h e he
    unfold compileShadersLoop at h
    cases h
    cases he
  | cons hd rest ih =>
    intro acc m t h e he
    obtain ⟨id, src⟩ := hd
    unfold compileShadersLoop at h
    split at h
    next => cases h
    next shader hs =>
    split at h
    next => cases h
    next m0 t0 hl =>
    cases h
    rcases List.mem_cons.mp he with he | he
    · exact ⟨id, he⟩
    · exact ih _ _ _ hl e he

theorem linkProgramsLoop_keys {b : RendererBuilder} :
    ∀ (links : List ProgramLink) (progs vaos ps vs : List (String × Nat)) (t : List Event),
      linkProgramsLoop b links progs vaos = Except.ok (ps, vs, t) →
      ∀ k, (containsKeyAL ps k = true ↔
            (containsKeyAL progs k = true ∨ k ∈ links.map ProgramLink.program_id)) ∧
           (containsKeyAL vs k = true ↔
            (containsKeyAL vaos k = true ∨ k ∈ links.map ProgramLink.program_id)) := by
  intro links
  induction links with
  | nil =>
    intro progs vaos ps vs t h k
    unfold linkProgramsLoop at h
    cases h
    simp
  | cons pl rest ih =>
    intro progs vaos ps vs t h k
    unfold linkProgramsLoop at h
    split at h
    next => cases h
    next program vao hp =>
    split at h
    next => cases h
    next ps0 vs0 t0 hl =>
    cases h
    obtain ⟨ih1, ih2⟩ := ih _ _ _ _ _ hl k
    constructor
    · rw [ih1]
      simp [containsKeyAL_insertAL]
      tauto
    · rw [ih2]
      simp [containsKeyAL_insertAL]
      tauto

theorem linkProgramsLoop_events {b : RendererBuilder} :
    ∀ (links : List ProgramLink) (progs vaos ps vs : List (String × Nat)) (t : List Event),
      linkProgramsLoop b links progs vaos = Except.ok (ps, vs, t) →
      ∀ e ∈ t, ∃ id, e = Event.programLinked id := by
  intro links
  induction links with
  | nil =>
    intro progs vaos ps vs t h e he
    unfold linkProgramsLoop at h
    cases h
    cases he
  | cons pl rest ih =>
    intro progs vaos ps vs t h e he
    unfold linkProgramsLoop at h
    split at h
    next => cases h
    next program vao hp =>
    split at h
    next => cases h
    next ps0 vs0 t0 hl =>
    cases h
    rcases List.mem_cons.mp he with he | he
    · exact ⟨pl.program_id, he⟩
    · exact ih _ _ _ _ _ hl e he

theorem createBuffersLoop_keys :
    ∀ (links : List BufferLink) (acc : List (String × Buffer)),
      ∀ k, containsKeyAL (createBuffersLoop links acc).1 k = true ↔
        (containsKeyAL acc k = true ∨ k ∈ links.map BufferLink.buffer_id) := by
  intro links
  induction links with
  | nil => intro acc k; simp [createBuffersLoop]
  | cons bl rest ih =>
    intro acc k
    rw [show (createBuffersLoop (bl :: rest) acc).1 =
        (createBuffersLoop rest (insertAL acc bl.buffer_id
          { buffer_id := bl.buffer_id, webgl_buffer := bl.create_buffer })).1 from rfl]
    rw [ih]
    simp [containsKeyAL_insertAL]
    tauto

theorem createBuffersLoop_events :
    ∀ (links : List BufferLink) (acc : List (String × Buffer)),
      ∀ e ∈ (createBuffersLoop links acc).2, ∃ id handle, e = Event.bufferCreated id handle := by
  intro links
  induction links with
  | nil => intro acc e he; cases he
  | cons bl rest ih =>
    intro acc e he
    rw [show (createBuffersLoop (bl :: rest) acc).2 =
        Event.bufferCreated bl.buffer_id bl.create_buffer ::
          (createBuffersLoop rest (insertAL acc bl.buffer_id
            { buffer_id := bl.buffer_id, webgl_buffer := bl.create_buffer })).2 from rfl] at he
    rcases List.mem_cons.mp he with he | he
    · exact ⟨bl.buffer_id, bl.create_buffer, he⟩
    · exact ih _ e he

theorem createTexturesLoop_keys :
    ∀ (links : List TextureLink) (acc : List (String × Texture)),
      ∀ k, containsKeyAL (createTexturesLoop links acc).1 k = true ↔
        (containsKeyAL acc k = true ∨ k ∈ links.map TextureLink.texture_id) := by
  intro links
  induction links with
  | nil => intro acc k; simp [createTexturesLoop]
  | cons tl rest ih =>
    intro acc k
    rw [show (createTexturesLoop (tl :: rest) acc).1 =
        (createTexturesLoop rest (insertAL acc tl.texture_id
          { texture_id := tl.texture_id, webgl_texture := tl.create_texture })).1 from rfl]
    rw [ih]
    simp [containsKeyAL_insertAL]
    tauto

theorem createTexturesLoop_events :
    ∀ (links : List TextureLink) (acc : List (String × Texture)),
      ∀ e ∈ (createTexturesLoop links acc).2, ∃ id handle, e = Event.textureCreated id handle := by
  intro links
  induction links with
  | nil => intro acc e he; cases he
  | cons tl rest ih =>
    intro acc e he
    rw [show (createTexturesLoop (tl :: rest) acc).2 =
        Event.textureCreated tl.texture_id tl.create_texture ::
          (createTexturesLoop rest (insertAL acc tl.texture_id
            { texture_id := tl.texture_id, webgl_texture := tl.create_texture })).2 from rfl] at he
    rcases List.mem_cons.mp he with he | he
    · exact ⟨tl.texture_id, tl.create_texture, he⟩
    · exact ih _ e he

/-- The framebuffer-creation loop's trace: one `framebufferCreated` event per
link, in order, carrying the texture handle resolved against `textures`. -/
theorem createFramebuffersLoop_trace (textures : List (String × Texture)) :
    ∀ (links : List FramebufferLink) (acc : List (String × Framebuffer)),
      (createFramebuffersLoop textures links acc).2 =
        links.map (fun fl => Event.framebufferCreated fl.framebuffer_id
          (resolveFramebufferTexture textures fl.texture_id)) := by
  intro links
  induction links with
  | nil => intro acc; rfl
  | cons fl rest ih =>
    intro acc
    rw [show (createFramebuffersLoop textures (fl :: rest) acc).2 =
        Event.framebufferCreated fl.framebuffer_id
            (resolveFramebufferTexture textures fl.texture_id) ::
          (createFramebuffersLoop textures rest (insertAL acc fl.framebuffer_id
            { framebuffer_id := fl.framebuffer_id,
              webgl_framebuffer := fl.framebuffer_create_callback })).2 from rfl]
    rw [ih]
    simp

theorem createFramebuffersLoop_keys (textures : List (String × Texture)) :
    ∀ (links : List FramebufferLink) (acc : List (String × Framebuffer)),
      ∀ k, containsKeyAL (createFramebuffersLoop textures links acc).1 k = true ↔
        (containsKeyAL acc k = true ∨ k ∈ links.map FramebufferLink.framebuffer_id) := by
  intro links
  induction links with
  | nil => intro acc k; simp [createFramebuffersLoop]
  | cons fl rest ih =>
    intro acc k
    rw [show (createFramebuffersLoop textures (fl :: rest) acc).1 =
        (createFramebuffersLoop textures rest (insertAL acc fl.framebuffer_id
          { framebuffer_id := fl.framebuffer_id,
            webgl_framebuffer := fl.framebuffer_create_callback })).1 from rfl]
    rw [ih]
    simp [containsKeyAL_insertAL]
    tauto

theorem createTransformFeedbacksLoop_keys {gl : WebGl2RenderingContext} :
    ∀ (links : List TransformFeedbackLink) (acc m : List (String × Nat)) (t : List Event),
      createTransformFeedbacksLoop gl links acc = Except.ok (m, t) →
      ∀ k, containsKeyAL m k = true ↔
        (containsKeyAL acc k = true ∨
          k ∈ links.map TransformFeedbackLink.transform_feedback_id) := by
  intro links
  induction links with
  | nil =>
    intro acc m t h k
    unfold createTransformFeedbacksLoop at h
    cases h
    simp
  | cons tl rest ih =>
    intro acc m t h k
    unfold createTransformFeedbacksLoop at h
    split at h
    next => cases h
    next handle hh =>
    split at h
    next => cases h
    next m0 t0 hl =>
    cases h
    rw [ih _ _ _ hl k]
    simp [containsKeyAL_insertAL]
    tauto

theorem createTransformFeedbacksLoop_events {gl : WebGl2RenderingContext} :
    ∀ (links : List TransformFeedbackLink) (acc m : List (String × Nat)) (t : List Event),
      createTransformFeedbacksLoop gl links acc = Except.ok (m, t) →
      ∀ e ∈ t, ∃ id, e = Event.tfCreated id := by
  intro links
  induction links with
  | nil =>
    intro acc m t h e he
    unfold createTransformFeedbacksLoop at h
    cases h
    cases he
  | cons tl rest ih =>
    intro acc m t h e he
    unfold createTransformFeedbacksLoop at h
    split at h
    next => cases h
    next handle hh =>
    split at h
    next => cases h
    next m0 t0 hl =>
    cases h
    rcases List.mem_cons.mp he with he | he
    · exact ⟨tl.transform_feedback_id, he⟩
    · exact ih _ _ _ hl e he

/-! ### Binding-state helpers -/

/-- Is this event a `use_program` call? -/
def isUseProgram : Event → Bool
  | Event.useProgram _ => true
  | _ => false

/-- Is this event a `bind_vertex_array` call? -/
def isBindVertexArray : Event → Bool
  | Event.bindVertexArray _ => true
  | _ => false

/-- Is this event a `bind_buffer(ARRAY_BUFFER, ..)` call? -/
def isBindArrayBuffer : Event → Bool
  | Event.bindArrayBuffer _ => true
  | _ => false

theorem runEvents_append (s : GLState) (t1 t2 : List Event) :
    runEvents s (t1 ++ t2) = runEvents (runEvents s t1) t2 := by
  simp [runEvents, List.foldl_append]

theorem applyEvent_program {s : GLState} {e : Event} (h : isUseProgram e = false) :
    (applyEvent s e).current_program = s.current_program := by
  cases e <;> simp_all [isUseProgram, applyEvent]

theorem applyEvent_vao {s : GLState} {e : Event} (h : isBindVertexArray e = false) :
    (applyEvent s e).bound_vertex_array = s.bound_vertex_array := by
  cases e <;> simp_all [isBindVertexArray, applyEvent]

theorem applyEvent_buffer {s : GLState} {e : Event} (h : isBindArrayBuffer e = false) :
    (applyEvent s e).bound_array_buffer = s.bound_array_buffer := by
  cases e <;> simp_all [isBindArrayBuffer, applyEvent]

theorem runEvents_program_of_no_use {t : List Event}
    (h : ∀ e ∈ t, isUseProgram e = false) (s : GLState) :
    (runEvents s t).current_program = s.current_program := by
  induction t generalizing s with
  | nil => rfl
  | cons e rest ih =>
    have he : isUseProgram e = false := h e (List.mem_cons_self e rest)
    have hr : ∀ e ∈ rest, isUseProgram e = false :=
      fun x hx => h x (List.mem_cons_of_mem e hx)
    calc (runEvents s (e :: rest)).current_program
        = (runEvents (applyEvent s e) rest).current_program := rfl
      _ = (applyEvent s e).current_program := ih hr (applyEvent s e)
      _ = s.current_program := applyEvent_program he

theorem runEvents_vao_of_no_bind {t : List Event}
    (h : ∀ e ∈ t, isBindVertexArray e = false) (s : GLState) :
    (runEvents s t).bound_vertex_array = s.bound_vertex_array := by
  induction t generalizing s with
  | nil => rfl
  | cons e rest ih =>
    have he : isBindVertexArray e = false := h e (List.mem_cons_self e rest)
    have hr : ∀ e ∈ rest, isBindVertexArray e = false :=
      fun x hx => h x (List.mem_cons_of_mem e hx)
    calc (runEvents s (e :: rest)).bound_vertex_array
        = (runEvents (applyEvent s e) rest).bound_vertex_array := rfl
      _ = (applyEvent s e).bound_vertex_array := ih hr (applyEvent s e)
      _ = s.bound_vertex_array := applyEvent_vao he

theorem runEvents_buffer_of_no_bind {t : List Event}
    (h : ∀ e ∈ t, isBindArrayBuffer e = false) (s : GLState) :
    (runEvents s t).bound_array_buffer = s.bound_array_buffer := by
  induction t generalizing s with
  | nil => rfl
  | cons e rest ih =>
    have he : isBindArrayBuffer e = false := h e (List.mem_cons_self e rest)
    have hr : ∀ e ∈ rest, isBindArrayBuffer e = false :=
      fun x hx => h x (List.mem_cons_of_mem e hx)
    calc (runEvents s (e :: rest)).bound_array_buffer
        = (runEvents (applyEvent s e) rest).bound_array_buffer := rfl
      _ = (applyEvent s e).bound_array_buffer := ih hr (applyEvent s e)
      _ = s.bound_array_buffer := applyEvent_buffer he

/-- After this trace, the active program is unbound, or was never touched. -/
def ProgramEndsClear (t : List Event) : Prop :=
  ∀ s, (runEvents s t).current_program = none ∨
       (runEvents s t).current_program = s.current_program

/-- After this trace, the bound VAO is unbound, or was never touched. -/
def VaoEndsClear (t : List Event) : Prop :=
  ∀ s, (runEvents s t).bound_vertex_array = none ∨
       (runEvents s t).bound_vertex_array = s.bound_vertex_array

/-- After this trace, the bound `ARRAY_BUFFER` is unbound, or never touched. -/
def BufferEndsClear (t : List Event) : Prop :=
  ∀ s, (runEvents s t).bound_array_buffer = none ∨
       (runEvents s t).bound_array_buffer = s.bound_array_buffer

theorem ProgramEndsClear_append {t1 t2 : List Event}
    (h1 : ProgramEndsClear t1) (h2 : ProgramEndsClear t2) :
    ProgramEndsClear (t1 ++ t2) := by
  intro s
  rw [runEvents_append]
  rcases h2 (runEvents s t1) with h | h
  · exact Or.inl h
  · rw [h]
    exact h1 s

theorem VaoEndsClear_append {t1 t2 : List Event}
    (h1 : VaoEndsClear t1) (h2 : VaoEndsClear t2) :
    VaoEndsClear (t1 ++ t2) := by
  intro s
  rw [runEvents_append]
  rcases h2 (runEvents s t1) with h | h
  · exact Or.inl h
  · rw [h]
    exact h1 s

theorem BufferEndsClear_append {t1 t2 : List Event}
    (h1 : BufferEndsClear t1) (h2 : BufferEndsClear t2) :
    BufferEndsClear (t1 ++ t2) := by
  intro s
  rw [runEvents_append]
  rcases h2 (runEvents s t1) with h | h
  · exact Or.inl h
  · rw [h]
    exact h1 s

theorem ProgramEndsClear_of_no_use {t : List Event}
    (h : ∀ e ∈ t, isUseProgram e = false) : ProgramEndsClear t :=
  fun s => Or.inr (runEvents_program_of_no_use h s)

theorem VaoEndsClear_of_no_bind {t : List Event}
    (h : ∀ e ∈ t, isBindVertexArray e = false) : VaoEndsClear t :=
  fun s => Or.inr (runEvents_vao_of_no_bind h s)

theorem BufferEndsClear_of_no_bind {t : List Event}
    (h : ∀ e ∈ t, isBindArrayBuffer e = false) : BufferEndsClear t :=
  fun s => Or.inr (runEvents_buffer_of_no_bind h s)

/-! ### Rank discriminator lemmas -/

theorem isUseProgram_false_of_rank {e : Event} (h : stageRank e ≠ 6) :
    isUseProgram e = false := by
  cases e <;> simp_all [stageRank, isUseProgram]

theorem isBindVertexArray_false_of_rank {e : Event} (h : stageRank e ≠ 5) :
    isBindVertexArray e = false := by
  cases e <;> simp_all [stageRank, isBindVertexArray]

theorem isBindArrayBuffer_false_of_rank {e : Event} (h : stageRank e ≠ 5) :
    isBindArrayBuffer e = false := by
  cases e <;> simp_all [stageRank, isBindArrayBuffer]

/-! ### Attribute-creation loop lemmas -/

theorem attributeProgramsLoop_facts {programs vaos : List (String × Nat)}
    {gl : WebGl2RenderingContext} {attribute_id : String} {webgl_buffer : Nat} :
    ∀ (pids : List String) (locs m : List (String × Int)) (t : List Event),
      attributeProgramsLoop programs vaos gl attribute_id webgl_buffer pids locs =
        Except.ok (m, t) →
      ∀ pid ∈ pids, ∃ prog vao,
        lookupAL programs pid = some prog ∧
        lookupAL vaos pid = some vao ∧
        gl.getAttribLocation prog attribute_id ≠ -1 := by
  intro pids
  induction pids with
  | nil => intro locs m t h pid hpid; cases hpid
  | cons pid0 rest ih =>
    intro locs m t h pid hpid
    unfold attributeProgramsLoop at h
    split at h
    next => cases h
    next prog hp =>
    split at h
    next => cases h
    next vao hv =>
    split at h
    next => cases h
    next hloc =>
    split at h
    next => cases h
    next m0 t0 hl =>
    cases h
    rcases List.mem_cons.mp hpid with hpid | hpid
    · subst hpid
      exact ⟨prog, vao, hp, hv, hloc⟩
    · exact ih _ _ _ hl pid hpid

theorem attributeProgramsLoop_events {programs vaos : List (String × Nat)}
    {gl : WebGl2RenderingContext} {attribute_id : String} {webgl_buffer : Nat} :
    ∀ (pids : List String) (locs m : List (String × Int)) (t : List Event),
      attributeProgramsLoop programs vaos gl attribute_id webgl_buffer pids locs =
        Except.ok (m, t) →
      ∀ e ∈ t, stageRank e = 5 := by
  intro pids
  induction pids with
  | nil =>
    intro locs m t h e he
    unfold attributeProgramsLoop at h
    cases h
    cases he
  | cons pid0 rest ih =>
    intro locs m t h e he
    unfold attributeProgramsLoop at h
    split at h
    next => cases h
    next prog hp =>
    split at h
    next => cases h
    next vao hv =>
    split at h
    next => cases h
    next hloc =>
    split at h
    next => cases h
    next m0 t0 hl =>
    cases h
    simp only [List.mem_cons] at he
    rcases he with he | he | he | he | he | he | he
    all_goals try (subst he; rfl)
    exact ih _ _ _ hl e he

theorem attributeProgramsLoop_clear {programs vaos : List (String × Nat)}
    {gl : WebGl2RenderingContext} {attribute_id : String} {webgl_buffer : Nat} :
    ∀ (pids : List String) (locs m : List (String × Int)) (t : List Event),
      attributeProgramsLoop programs vaos gl attribute_id webgl_buffer pids locs =
        Except.ok (m, t) →
      VaoEndsClear t ∧ BufferEndsClear t := by
  intro pids
  induction pids with
  | nil =>
    intro locs m t h
    unfold attributeProgramsLoop at h
    cases h
    exact ⟨fun s => Or.inr rfl, fun s => Or.inr rfl⟩
  | cons pid0 rest ih =>
    intro locs m t h
    unfold attributeProgramsLoop at h
    split at h
    next => cases h
    next prog hp =>
    split at h
    next => cases h
    next vao hv =>
    split at h
    next => cases h
    next hloc =>
    split at h
    next => cases h
    next m0 t0 hl =>
    cases h
    obtain ⟨ihv, ihb⟩ := ih _ _ _ hl
    constructor
    · intro s
      rcases ihv (runEvents s
          [Event.bindVertexArray (some vao), Event.bindArrayBuffer (some webgl_buffer),
           Event.enableVertexAttribArray (gl.getAttribLocation prog attribute_id),
           Event.attribCreateCb attribute_id pid0,
           Event.bindVertexArray none, Event.bindArrayBuffer none]) with hc | hc
      · exact Or.inl hc
      · left
        rw [show (Event.bindVertexArray (some vao) :: Event.bindArrayBuffer (some webgl_buffer) ::
              Event.enableVertexAttribArray (gl.getAttribLocation prog attribute_id) ::
              Event.attribCreateCb attribute_id pid0 ::
              Event.bindVertexArray none :: Event.bindArrayBuffer none :: t0) =
            [Event.bindVertexArray (some vao), Event.bindArrayBuffer (some webgl_buffer),
             Event.enableVertexAttribArray (gl.getAttribLocation prog attribute_id),
             Event.attribCreateCb attribute_id pid0,
             Event.bindVertexArray none, Event.bindArrayBuffer none] ++ t0 from rfl,
          runEvents_append]
        rw [hc]
        simp [runEvents, applyEvent]
    · intro s
      rcases ihb (runEvents s
          [Event.bindVertexArray (some vao), Event.bindArrayBuffer (some webgl_buffer),
           Event.enableVertexAttribArray (gl.getAttribLocation prog attribute_id),
           Event.attribCreateCb attribute_id pid0,
           Event.bindVertexArray none, Event.bindArrayBuffer none]) with hc | hc
      · exact Or.inl hc
      · left
        rw [show (Event.bindVertexArray (some vao) :: Event.bindArrayBuffer (some webgl_buffer) ::
              Event.enableVertexAttribArray (gl.getAttribLocation prog attribute_id) ::
              Event.attribCreateCb attribute_id pid0 ::
              Event.bindVertexArray none :: Event.bindArrayBuffer none :: t0) =
            [Event.bindVertexArray (some vao), Event.bindArrayBuffer (some webgl_buffer),
             Event.enableVertexAttribArray (gl.getAttribLocation prog attribute_id),
             Event.attribCreateCb attribute_id pid0,
             Event.bindVertexArray none, Event.bindArrayBuffer none] ++ t0 from rfl,
          runEvents_append]
        rw [hc]
        simp [runEvents, applyEvent]

theorem createAttributesLoop_facts {programs vaos : List (String × Nat)}
    {buffers : List (String × Buffer)} {gl : WebGl2RenderingContext} :
    ∀ (links : List AttributeLink) (acc m : List (String × Attribute)) (t : List Event),
      createAttributesLoop programs vaos buffers gl links acc = Except.ok (m, t) →
      ∀ al ∈ links, containsKeyAL buffers al.buffer_id = true ∧
        ∀ pid ∈ al.program_ids, ∃ prog vao,
          lookupAL programs pid = some prog ∧
          lookupAL vaos pid = some vao ∧
          gl.getAttribLocation prog al.attribute_id ≠ -1 := by
  intro links
  induction links with
  | nil => intro acc m t h al hal; cases hal
  | cons al0 rest ih =>
    intro acc m t h al hal
    unfold createAttributesLoop at h
    split at h
    next => cases h
    next buffer hb =>
    split at h
    next => cases h
    next locs t1 hlp =>
    split at h
    next => cases h
    next m2 t2 hl2 =>
    cases h
    rcases List.mem_cons.mp hal with hal | hal
    · subst hal
      refine ⟨by simp [containsKeyAL, hb], ?_⟩
      exact attributeProgramsLoop_facts _ _ _ _ hlp
    · exact ih _ _ _ hl2 al hal

theorem createAttributesLoop_keys {programs vaos : List (String × Nat)}
    {buffers : List (String × Buffer)} {gl : WebGl2RenderingContext} :
    ∀ (links : List AttributeLink) (acc m : List (String × Attribute)) (t : List Event),
      createAttributesLoop programs vaos buffers gl links acc = Except.ok (m, t) →
      ∀ k, containsKeyAL m k = true ↔
        (containsKeyAL acc k = true ∨ k ∈ links.map AttributeLink.attribute_id) := by
  intro links
  induction links with
  | nil =>
    intro acc m t h k
    unfold createAttributesLoop at h
    cases h
    simp
  | cons al0 rest ih =>
    intro acc m t h k
    unfold createAttributesLoop at h
    split at h
    next => cases h
    next buffer hb =>
    split at h
    next => cases h
    next locs t1 hlp =>
    split at h
    next => cases h
    next m2 t2 hl2 =>
    cases h
    rw [ih _ _ _ hl2 k]
    simp [containsKeyAL_insertAL]
    tauto

theorem createAttributesLoop_events {programs vaos : List (String × Nat)}
    {buffers : List (String × Buffer)} {gl : WebGl2RenderingContext} :
    ∀ (links : List AttributeLink) (acc m : List (String × Attribute)) (t : List Event),
      createAttributesLoop programs vaos buffers gl links acc = Except.ok (m, t) →
      ∀ e ∈ t, stageRank e = 5 := by
  intro links
  induction links with
  | nil =>
    intro acc m t h e he
    unfold createAttributesLoop at h
    cases h
    cases he
  | cons al0 rest ih =>
    intro acc m t h e he
    unfold createAttributesLoop at h
    split at h
    next => cases h
    next buffer hb =>
    split at h
    next => cases h
    next locs t1 hlp =>
    split at h
    next => cases h
    next m2 t2 hl2 =>
    cases h
    rcases List.mem_append.mp he with he | he
    · exact attributeProgramsLoop_events _ _ _ _ hlp e he
    · exact ih _ _ _ hl2 e he

theorem createAttributesLoop_clear {programs vaos : List (String × Nat)}
    {buffers : List (String × Buffer)} {gl : WebGl2RenderingContext} :
    ∀ (links : List AttributeLink) (acc m : List (String × Attribute)) (t : List Event),
      createAttributesLoop programs vaos buffers gl links acc = Except.ok (m, t) →
      VaoEndsClear t ∧ BufferEndsClear t := by
  intro links
  induction links with
  | nil =>
    intro acc m t h
    unfold createAttributesLoop at h
    cases h
    exact ⟨fun s => Or.inr rfl, fun s => Or.inr rfl⟩
  | cons al0 rest ih =>
    intro acc m t h
    unfold createAttributesLoop at h
    split at h
    next => cases h
    next buffer hb =>
    split at h
    next => cases h
    next locs t1 hlp =>
    split at h
    next => cases h
    next m2 t2 hl2 =>
    cases h
    obtain ⟨h1v, h1b⟩ := attributeProgramsLoop_clear _ _ _ _ hlp
    obtain ⟨h2v, h2b⟩ := ih _ _ _ hl2
    exact ⟨VaoEndsClear_append h1v h2v, BufferEndsClear_append h1b h2b⟩

/-! ### Uniform-building loop lemmas -/

theorem uniformProgramsLoop_trace {programs : List (String × Nat)}
    {gl : WebGl2RenderingContext} {uniform_id : String} :
    ∀ (pids : List String) (locs m : List (String × Nat)) (t : List Event),
      uniformProgramsLoop programs gl uniform_id pids locs = Except.ok (m, t) →
      t = pids.flatMap (fun pid =>
        [Event.useProgram (lookupAL programs pid),
         Event.uniformInit uniform_id pid,
         Event.useProgram none]) := by
  intro pids
  induction pids with
  | nil =>
    intro locs m t h
    unfold uniformProgramsLoop at h
    cases h
    rfl
  | cons pid0 rest ih =>
    intro locs m t h
    unfold uniformProgramsLoop at h
    split at h
    next => cases h
    next program hp =>
    split at h
    next => cases h
    next loc hloc =>
    split at h
    next => cases h
    next m0 t0 hl =>
    cases h
    rw [ih _ _ _ hl]
    simp [hp]

theorem uniformProgramsLoop_locations {programs : List (String × Nat)}
    {gl : WebGl2RenderingContext} {uniform_id : String} :
    ∀ (pids : List String) (locs m : List (String × Nat)) (t : List Event),
      uniformProgramsLoop programs gl uniform_id pids locs = Except.ok (m, t) →
      ∀ k, lookupAL m k =
        if k ∈ pids then
          (lookupAL programs k).bind (fun p => gl.getUniformLocation p uniform_id)
        else lookupAL locs k := by
  intro pids
  induction pids with
  | nil =>
    intro locs m t h k
    unfold uniformProgramsLoop at h
    cases h
    simp
  | cons pid0 rest ih =>
    intro locs m t h k
    unfold uniformProgramsLoop at h
    split at h
    next => cases h
    next program hp =>
    split at h
    next => cases h
    next loc hloc =>
    split at h
    next => cases h
    next m0 t0 hl =>
    cases h
    have hk := ih _ _ _ hl k
    by_cases hkr : k ∈ rest
    · rw [hk, if_pos hkr, if_pos (List.mem_cons.mpr (Or.inr hkr))]
    · rw [hk, if_neg hkr, lookupAL_insertAL]
      by_cases hkp : pid0 = k
      · subst hkp
        rw [if_pos rfl, if_pos (List.mem_cons_self pid0 rest)]
        simp [hp, hloc]
      · rw [if_neg hkp]
        have : ¬k ∈ pid0 :: rest := by
          intro hc
          rcases List.mem_cons.mp hc with hc | hc
          · exact hkp hc.symm
          · exact hkr hc
        rw [if_neg this]

theorem uniformProgramsLoop_facts {programs : List (String × Nat)}
    {gl : WebGl2RenderingContext} {uniform_id : String} :
    ∀ (pids : List String) (locs m : List (String × Nat)) (t : List Event),
      uniformProgramsLoop programs gl uniform_id pids locs = Except.ok (m, t) →
      ∀ pid ∈ pids, ∃ prog loc,
        lookupAL programs pid = some prog ∧
        gl.getUniformLocation prog uniform_id = some loc := by
  intro pids
  induction pids with
  | nil => intro locs m t h pid hpid; cases hpid
  | cons pid0 rest ih =>
    intro locs m t h pid hpid
    unfold uniformProgramsLoop at h
    split at h
    next => cases h
    next program hp =>
    split at h
    next => cases h
    next loc hloc =>
    split at h
    next => cases h
    next m0 t0 hl =>
    cases h
    rcases List.mem_cons.mp hpid with hpid | hpid
    · subst hpid
      exact ⟨program, loc, hp, hloc⟩
    · exact ih _ _ _ hl pid hpid

theorem uniformProgramsLoop_length {programs : List (String × Nat)}
    {gl : WebGl2RenderingContext} {uniform_id : String} :
    ∀ (pids : List String) (locs m : List (String × Nat)) (t : List Event),
      uniformProgramsLoop programs gl uniform_id pids locs = Except.ok (m, t) →
      pids.Nodup → (∀ pid ∈ pids, containsKeyAL locs pid = false) →
      m.length = locs.length + pids.length := by
  intro pids
  induction pids with
  | nil =>
    intro locs m t h _ _
    unfold uniformProgramsLoop at h
    cases h
    rfl
  | cons pid0 rest ih =>
    intro locs m t h hnd hfresh
    unfold uniformProgramsLoop at h
    split at h
    next => cases h
    next program hp =>
    split at h
    next => cases h
    next loc hloc =>
    split at h
    next => cases h
    next m0 t0 hl =>
    cases h
    have hnd' : rest.Nodup := (List.nodup_cons.mp hnd).2
    have hpid0 : pid0 ∉ rest := (List.nodup_cons.mp hnd).1
    have hfresh' : ∀ pid ∈ rest, containsKeyAL (insertAL locs pid0 loc) pid = false := by
      intro pid hpid
      rw [containsKeyAL_insertAL]
      have h1 : containsKeyAL locs pid = false :=
        hfresh pid (List.mem_cons_of_mem pid0 hpid)
      have h2 : pid0 ≠ pid := fun hc => hpid0 (hc ▸ hpid)
      simp [h1, h2]
    have hlen := ih _ _ _ hl hnd' hfresh'
    rw [hlen, length_insertAL]
    have h0 : containsKeyAL locs pid0 = false := hfresh pid0 (List.mem_cons_self pid0 rest)
    simp [h0]
    omega

theorem uniformProgramsLoop_events {programs : List (String × Nat)}
    {gl : WebGl2RenderingContext} {uniform_id : String} :
    ∀ (pids : List String) (locs m : List (String × Nat)) (t : List Event),
      uniformProgramsLoop programs gl uniform_id pids locs = Except.ok (m, t) →
      ∀ e ∈ t, stageRank e = 6 := by
  intro pids
  induction pids with
  | nil =>
    intro locs m t h e he
    unfold uniformProgramsLoop at h
    cases h
    cases he
  | cons pid0 rest ih =>
    intro locs m t h e he
    unfold uniformProgramsLoop at h
    split at h
    next => cases h
    next program hp =>
    split at h
    next => cases h
    next loc hloc =>
    split at h
    next => cases h
    next m0 t0 hl =>
    cases h
    simp only [List.mem_cons] at he
    rcases he with he | he | he | he
    all_goals try (subst he; rfl)
    exact ih _ _ _ hl e he

theorem uniformProgramsLoop_program_clear {programs : List (String × Nat)}
    {gl : WebGl2RenderingContext} {uniform_id : String} :
    ∀ (pids : List String) (locs m : List (String × Nat)) (t : List Event),
      uniformProgramsLoop programs gl uniform_id pids locs = Except.ok (m, t) →
      ProgramEndsClear t := by
  intro pids
  induction pids with
  | nil =>
    intro locs m t h
    unfold uniformProgramsLoop at h
    cases h
    exact fun s => Or.inr rfl
  | cons pid0 rest ih =>
    intro locs m t h
    unfold uniformProgramsLoop at h
    split at h
    next => cases h
    next program hp =>
    split at h
    next => cases h
    next loc hloc =>
    split at h
    next => cases h
    next m0 t0 hl =>
    cases h
    intro s
    rcases ih _ _ _ hl (runEvents s
        [Event.useProgram (some program), Event.uniformInit uniform_id pid0,
         Event.useProgram none]) with hc | hc
    · left
      rw [show (Event.useProgram (some program) :: Event.uniformInit uniform_id pid0 ::
            Event.useProgram none :: t0) =
          [Event.useProgram (some program), Event.uniformInit uniform_id pid0,
           Event.useProgram none] ++ t0 from rfl, runEvents_append]
      exact hc
    · left
      rw [show (Event.useProgram (some program) :: Event.uniformInit uniform_id pid0 ::
            Event.useProgram none :: t0) =
          [Event.useProgram (some program), Event.uniformInit uniform_id pid0,
           Event.useProgram none] ++ t0 from rfl, runEvents_append]
      rw [hc]
      simp [runEvents, applyEvent]

theorem build_uniform_ok {b : RendererBuilder} {ul : UniformLink} {u : Uniform}
    {t : List Event} (h : build_uniform b ul = Except.ok (u, t)) :
    ∃ gl, b.gl = some gl ∧
      uniformProgramsLoop b.programs gl ul.uniform_id ul.program_ids [] =
        Except.ok (u.uniform_locations, t) ∧
      u.program_ids = ul.program_ids ∧ u.uniform_id = ul.uniform_id := by
  unfold build_uniform at h
  split at h
  next => cases h
  next gl hg =>
  split at h
  next => cases h
  next locs t0 hl =>
  cases h
  exact ⟨gl, hg, hl, rfl, rfl⟩

theorem buildUniformsLoop_each {b : RendererBuilder} :
    ∀ (links : List UniformLink) (acc m : List (String × Uniform)) (t : List Event),
      buildUniformsLoop b links acc = Except.ok (m, t) →
      ∀ ul ∈ links, ∃ u t1, build_uniform b ul = Except.ok (u, t1) := by
  intro links
  induction links with
  | nil => intro acc m t h ul hul; cases hul
  | cons ul0 rest ih =>
    intro acc m t h ul hul
    unfold buildUniformsLoop at h
    split at h
    next => cases h
    next u t1 hu =>
    split at h
    next => cases h
    next m2 t2 hl2 =>
    cases h
    rcases List.mem_cons.mp hul with hul | hul
    · subst hul
      exact ⟨u, t1, hu⟩
    · exact ih _ _ _ hl2 ul hul

theorem buildUniformsLoop_keys {b : RendererBuilder} :
    ∀ (links : List UniformLink) (acc m : List (String × Uniform)) (t : List Event),
      buildUniformsLoop b links acc = Except.ok (m, t) →
      ∀ k, containsKeyAL m k = true ↔
        (containsKeyAL acc k = true ∨ k ∈ links.map UniformLink.uniform_id) := by
  intro links
  induction links with
  | nil =>
    intro acc m t h k
    unfold buildUniformsLoop at h
    cases h
    simp
  | cons ul0 rest ih =>
    intro acc m t h k
    unfold buildUniformsLoop at h
    split at h
    next => cases h
    next u t1 hu =>
    split at h
    next => cases h
    next m2 t2 hl2 =>
    cases h
    rw [ih _ _ _ hl2 k]
    simp [containsKeyAL_insertAL]
    tauto

theorem buildUniformsLoop_events {b : RendererBuilder} :
    ∀ (links : List UniformLink) (acc m : List (String × Uniform)) (t : List Event),
      buildUniformsLoop b links acc = Except.ok (m, t) →
      ∀ e ∈ t, stageRank e = 6 := by
  intro links
  induction links with
  | nil =>
    intro acc m t h e he
    unfold buildUniformsLoop at h
    cases h
    cases he
  | cons ul0 rest ih =>
    intro acc m t h e he
    unfold buildUniformsLoop at h
    split at h
    next => cases h
    next u t1 hu =>
    split at h
    next => cases h
    next m2 t2 hl2 =>
    cases h
    rcases List.mem_append.mp he with he | he
    · obtain ⟨gl, _, hl, _, _⟩ := build_uniform_ok hu
      exact uniformProgramsLoop_events _ _ _ _ hl e he
    · exact ih _ _ _ hl2 e he

theorem buildUniformsLoop_program_clear {b : RendererBuilder} :
    ∀ (links : List UniformLink) (acc m : List (String × Uniform)) (t : List Event),
      buildUniformsLoop b links acc = Except.ok (m, t) →
      ProgramEndsClear t := by
  intro links
  induction links with
  | nil =>
    intro acc m t h
    unfold buildUniformsLoop at h
    cases h
    exact fun s => Or.inr rfl
  | cons ul0 rest ih =>
    intro acc m t h
    unfold buildUniformsLoop at h
    split at h
    next => cases h
    next u t1 hu =>
    split at h
    next => cases h
    next m2 t2 hl2 =>
    cases h
    obtain ⟨gl, _, hl, _, _⟩ := build_uniform_ok hu
    exact ProgramEndsClear_append (uniformProgramsLoop_program_clear _ _ _ _ hl) (ih _ _ _ hl2)

/-- The number of uniform-initialize invocations in a per-uniform trace is the
number of owning program ids. -/
theorem countUniformInits_bind (progs : List (String × Nat)) (uniform_id : String) :
    ∀ pids : List String,
      countUniformInits (pids.flatMap (fun pid =>
        [Event.useProgram (lookupAL progs pid),
         Event.uniformInit uniform_id pid,
         Event.useProgram none])) = pids.length := by
  intro pids
  induction pids with
  | nil => rfl
  | cons pid rest ih =>
    simp only [List.flatMap_cons, countUniformInits, List.filter_append, List.length_append] at ih ⊢
    rw [ih]
    simp [List.filter]
    omega

/-! ### Consolidated facts about a successful build -/

theorem build_ok_context {b : RendererBuilder} {r : Renderer} {t : List Event}
    (h : build b = Except.ok (r, t)) :
    ∃ c, b.canvas = some c ∧ context_from_canvas c = Except.ok r.gl ∧
      b.render_callback = some r.render_callback := by
  obtain ⟨b1, b2, b3, b4, b5, b6, b7, b8, b9, b10, t2, t3, t4, t5, t6, t7, t8, t9, t10,
    canvas, gl, rc, h1, h2, h3, h4, h5, h6, h7, h8, h9, h10, hc, hg, hrc, hr, ht⟩ :=
    build_ok_decomp h
  obtain ⟨c, gl0, hbc, hctx, hb1⟩ := save_webgl_context_ok h1
  obtain ⟨fsm, hl2, hb2⟩ := compile_fragment_shaders_ok h2
  obtain ⟨vsm, hl3, hb3⟩ := compile_vertex_shaders_ok h3
  obtain ⟨ps, vs, hl4, hb4⟩ := link_programs_ok h4
  obtain ⟨gl5, bm, hg5, hl5, hb5⟩ := create_buffers_ok h5
  obtain ⟨gl6, am, hg6, hl6, hb6⟩ := create_attributes_ok h6
  obtain ⟨um, hl7, hb7⟩ := build_uniforms_ok h7
  obtain ⟨gl8, tm, hg8, hl8, hb8⟩ := create_textures_ok h8
  obtain ⟨gl9, fbm, hg9, hl9, hb9⟩ := create_framebuffers_ok h9
  obtain ⟨gl10, tfm, hg10, hl10, hb10⟩ := create_transform_feedbacks_ok h10
  subst hb1 hb2 hb3 hb4 hb5 hb6 hb7 hb8 hb9 hb10
  simp only at hc hg hrc
  injection hg with hgl
  subst hr
  refine ⟨c, hbc, ?_, ?_⟩
  · simp only
    rw [← hgl]
    exact hctx
  · simp only
    exact hrc

/-- On a successful build, each resource table contains exactly the keys it
held before the build plus the identifiers of the corresponding registered
links (for shaders: the registered source ids). -/
theorem build_ok_tables {b : RendererBuilder} {r : Renderer} {t : List Event}
    (h : build b = Except.ok (r, t)) :
    (∀ k, containsKeyAL r.fragment_shaders k = true ↔
      (containsKeyAL b.fragment_shaders k = true ∨
        k ∈ b.fragment_shader_sources.map Prod.fst)) ∧
    (∀ k, containsKeyAL r.vertex_shaders k = true ↔
      (containsKeyAL b.vertex_shaders k = true ∨
        k ∈ b.vertex_shader_sources.map Prod.fst)) ∧
    (∀ k, containsKeyAL r.programs k = true ↔
      (containsKeyAL b.programs k = true ∨
        k ∈ b.program_links.map ProgramLink.program_id)) ∧
    (∀ k, containsKeyAL r.vertex_array_objects k = true ↔
      (containsKeyAL b.vertex_array_objects k = true ∨
        k ∈ b.program_links.map ProgramLink.program_id)) ∧
    (∀ k, containsKeyAL r.buffers k = true ↔
      (containsKeyAL b.buffers k = true ∨
        k ∈ b.buffer_links.map BufferLink.buffer_id)) ∧
    (∀ k, containsKeyAL r.attributes k = true ↔
      (containsKeyAL b.attributes k = true ∨
        k ∈ b.attribute_links.map AttributeLink.attribute_id)) ∧
    (∀ k, containsKeyAL r.uniforms k = true ↔
      (containsKeyAL b.uniforms k = true ∨
        k ∈ b.uniform_links.map UniformLink.uniform_id)) ∧
    (∀ k, containsKeyAL r.textures k = true ↔
      (containsKeyAL b.textures k = true ∨
        k ∈ b.texture_links.map TextureLink.texture_id)) ∧
    (∀ k, containsKeyAL r.framebuffers k = true ↔
      (containsKeyAL b.framebuffers k = true ∨
        k ∈ b.framebuffer_links.map FramebufferLink.framebuffer_id)) ∧
    (∀ k, containsKeyAL r.transform_feedbacks k = true ↔
      (containsKeyAL b.transform_feedbacks k = true ∨
        k ∈ b.transform_feedback_links.map TransformFeedbackLink.transform_feedback_id)) := by
  obtain ⟨b1, b2, b3, b4, b5, b6, b7, b8, b9, b10, t2, t3, t4, t5, t6, t7, t8, t9, t10,
    canvas, gl, rc, h1, h2, h3, h4, h5, h6, h7, h8, h9, h10, hc, hg, hrc, hr, ht⟩ :=
    build_ok_decomp h
  obtain ⟨c, gl0, hbc, hctx, hb1⟩ := save_webgl_context_ok h1
  obtain ⟨fsm, hl2, hb2⟩ := compile_fragment_shaders_ok h2
  obtain ⟨vsm, hl3, hb3⟩ := compile_vertex_shaders_ok h3
  obtain ⟨ps, vs, hl4, hb4⟩ := link_programs_ok h4
  obtain ⟨gl5, bm, hg5, hl5, hb5⟩ := create_buffers_ok h5
  obtain ⟨gl6, am, hg6, hl6, hb6⟩ := create_attributes_ok h6
  obtain ⟨um, hl7, hb7⟩ := build_uniforms_ok h7
  obtain ⟨gl8, tm, hg8, hl8, hb8⟩ := create_textures_ok h8
  obtain ⟨gl9, fbm, hg9, hl9, hb9⟩ := create_framebuffers_ok h9
  obtain ⟨gl10, tfm, hg10, hl10, hb10⟩ := create_transform_feedbacks_ok h10
  subst hb1 hb2 hb3 hb4 hb5 hb6 hb7 hb8 hb9 hb10
  simp only at hl2 hl3 hl4 hl5 hl6 hl7 hl8 hl9 hl10
  subst hr
  refine ⟨?_, ?_, ?_, ?_, ?_, ?_, ?_, ?_, ?_, ?_⟩
  · intro k
    simp only
    exact compileShadersLoop_keys _ _ _ _ hl2 k
  · intro k
    simp only
    exact compileShadersLoop_keys _ _ _ _ hl3 k
  · intro k
    simp only
    exact ((linkProgramsLoop_keys _ _ _ _ _ _ hl4 k).1)
  · intro k
    simp only
    exact ((linkProgramsLoop_keys _ _ _ _ _ _ hl4 k).2)
  · intro k
    simp only
    have hkeys := createBuffersLoop_keys b.buffer_links b.buffers k
    rw [hl5] at hkeys
    simpa using hkeys
  · intro k
    simp only
    exact createAttributesLoop_keys _ _ _ _ hl6 k
  · intro k
    simp only
    exact buildUniformsLoop_keys _ _ _ _ hl7 k
  · intro k
    simp only
    have hkeys := createTexturesLoop_keys b.texture_links b.textures k
    rw [hl8] at hkeys
    simpa using hkeys
  · intro k
    simp only
    have hkeys := createFramebuffersLoop_keys tm b.framebuffer_links b.framebuffers k
    rw [hl9] at hkeys
    simpa using hkeys
  · intro k
    simp only
    exact createTransformFeedbacksLoop_keys _ _ _ _ hl10 k

/-- On a successful build, every attribute and uniform link resolved: the
referenced buffer exists, every owning program id resolves to a program and a
VAO, and every GPU name lookup succeeded (attribute locations are not the
`-1` sentinel; uniform locations are present). -/
theorem build_ok_resolution {b : RendererBuilder} {r : Renderer} {t : List Event}
    (h : build b = Except.ok (r, t)) :
    (∀ al ∈ b.attribute_links, containsKeyAL r.buffers al.buffer_id = true ∧
      ∀ pid ∈ al.program_ids, ∃ prog vao,
        lookupAL r.programs pid = some prog ∧
        lookupAL r.vertex_array_objects pid = some vao ∧
        r.gl.getAttribLocation prog al.attribute_id ≠ -1) ∧
    (∀ ul ∈ b.uniform_links, ∀ pid ∈ ul.program_ids, ∃ prog loc,
        lookupAL r.programs pid = some prog ∧
        r.gl.getUniformLocation prog ul.uniform_id = some loc) := by
  obtain ⟨b1, b2, b3, b4, b5, b6, b7, b8, b9, b10, t2, t3, t4, t5, t6, t7, t8, t9, t10,
    canvas, gl, rc, h1, h2, h3, h4, h5, h6, h7, h8, h9, h10, hc, hg, hrc, hr, ht⟩ :=
    build_ok_decomp h
  obtain ⟨c, gl0, hbc, hctx, hb1⟩ := save_webgl_context_ok h1
  obtain ⟨fsm, hl2, hb2⟩ := compile_fragment_shaders_ok h2
  obtain ⟨vsm, hl3, hb3⟩ := compile_vertex_shaders_ok h3
  obtain ⟨ps, vs, hl4, hb4⟩ := link_programs_ok h4
  obtain ⟨gl5, bm, hg5, hl5, hb5⟩ := create_buffers_ok h5
  obtain ⟨gl6, am, hg6, hl6, hb6⟩ := create_attributes_ok h6
  obtain ⟨um, hl7, hb7⟩ := build_uniforms_ok h7
  obtain ⟨gl8, tm, hg8, hl8, hb8⟩ := create_textures_ok h8
  obtain ⟨gl9, fbm, hg9, hl9, hb9⟩ := create_framebuffers_ok h9
  obtain ⟨gl10, tfm, hg10, hl10, hb10⟩ := create_transform_feedbacks_ok h10
  -- gl is threaded unchanged from stage 1 on
  have g1 : b1.gl = some gl0 := by rw [hb1]
  have g2 : b2.gl = some gl0 := by rw [hb2]; exact g1
  have g3 : b3.gl = some gl0 := by rw [hb3]; exact g2
  have g4 : b4.gl = some gl0 := by rw [hb4]; exact g3
  have g5 : b5.gl = some gl0 := by rw [hb5]; exact g4
  have g6 : b6.gl = some gl0 := by rw [hb6]; exact g5
  have g7 : b7.gl = some gl0 := by rw [hb7]; exact g6
  have g8 : b8.gl = some gl0 := by rw [hb8]; exact g7
  have g9 : b9.gl = some gl0 := by rw [hb9]; exact g8
  have g10 : b10.gl = some gl0 := by rw [hb10]; exact g9
  have hgl : gl = gl0 := by
    rw [g10] at hg
    injection hg with hgg
    exact hgg.symm
  have hrgl : r.gl = gl0 := by rw [hr, hgl]
  -- programs table is ps from stage 4 on
  have p4 : b4.programs = ps := by rw [hb4]
  have p5 : b5.programs = ps := by rw [hb5]; exact p4
  have p6 : b6.programs = ps := by rw [hb6]; exact p5
  have p7 : b7.programs = ps := by rw [hb7]; exact p6
  have p8 : b8.programs = ps := by rw [hb8]; exact p7
  have p9 : b9.programs = ps := by rw [hb9]; exact p8
  have p10 : b10.programs = ps := by rw [hb10]; exact p9
  have hrp : r.programs = ps := by rw [hr]; exact p10
  -- VAO table is vs from stage 4 on
  have v4 : b4.vertex_array_objects = vs := by rw [hb4]
  have v5 : b5.vertex_array_objects = vs := by rw [hb5]; exact v4
  have v6 : b6.vertex_array_objects = vs := by rw [hb6]; exact v5
  have v7 : b7.vertex_array_objects = vs := by rw [hb7]; exact v6
  have v8 : b8.vertex_array_objects = vs := by rw [hb8]; exact v7
  have v9 : b9.vertex_array_objects = vs := by rw [hb9]; exact v8
  have v10 : b10.vertex_array_objects = vs := by rw [hb10]; exact v9
  have hrv : r.vertex_array_objects = vs := by rw [hr]; exact v10
  -- buffer table is bm from stage 5 on
  have bu5 : b5.buffers = bm := by rw [hb5]
  have bu6 : b6.buffers = bm := by rw [hb6]; exact bu5
  have bu7 : b7.buffers = bm := by rw [hb7]; exact bu6
  have bu8 : b8.buffers = bm := by rw [hb8]; exact bu7
  have bu9 : b9.buffers = bm := by rw [hb9]; exact bu8
  have bu10 : b10.buffers = bm := by rw [hb10]; exact bu9
  have hrb : r.buffers = bm := by rw [hr]; exact bu10
  -- link sets are never modified by the pipeline
  have al1 : b1.attribute_links = b.attribute_links := by rw [hb1]
  have al2 : b2.attribute_links = b.attribute_links := by rw [hb2]; exact al1
  have al3 : b3.attribute_links = b.attribute_links := by rw [hb3]; exact al2
  have al4 : b4.attribute_links = b.attribute_links := by rw [hb4]; exact al3
  have al5 : b5.attribute_links = b.attribute_links := by rw [hb5]; exact al4
  have ul1 : b1.uniform_links = b.uniform_links := by rw [hb1]
  have ul2 : b2.uniform_links = b.uniform_links := by rw [hb2]; exact ul1
  have ul3 : b3.uniform_links = b.uniform_links := by rw [hb3]; exact ul2
  have ul4 : b4.uniform_links = b.uniform_links := by rw [hb4]; exact ul3
  have ul5 : b5.uniform_links = b.uniform_links := by rw [hb5]; exact ul4
  have ul6 : b6.uniform_links = b.uniform_links := by rw [hb6]; exact ul5
  -- identify the stage-local contexts with gl0
  have hgl6 : gl6 = gl0 := by
    rw [g5] at hg6
    injection hg6 with hgg
    exact hgg.symm
  rw [p5, v5, bu5, al5, hgl6] at hl6
  rw [ul6] at hl7
  constructor
  · intro al hal
    obtain ⟨hbuf, hpids⟩ := createAttributesLoop_facts _ _ _ _ hl6 al hal
    rw [hrb, hrp, hrv, hrgl]
    refine ⟨hbuf, ?_⟩
    intro pid hpid
    exact hpids pid hpid
  · intro ul hul pid hpid
    obtain ⟨u, t1, hu⟩ := buildUniformsLoop_each _ _ _ _ hl7 ul hul
    obtain ⟨glu, hglu, hlu, _, _⟩ := build_uniform_ok hu
    have hglu0 : glu = gl0 := by
      rw [g6] at hglu
      injection hglu with hgg
      exact hgg.symm
    rw [p6, hglu0] at hlu
    rw [hrp, hrgl]
    exact uniformProgramsLoop_facts _ _ _ _ hlu pid hpid

/-- On a successful build, every framebuffer link's creation callback is
invoked with the texture handle resolved from the final texture table — an
absent or unresolvable texture id yields an absent handle, never an error. -/
theorem build_ok_framebuffer_events {b : RendererBuilder} {r : Renderer} {t : List Event}
    (h : build b = Except.ok (r, t)) :
    ∀ fl ∈ b.framebuffer_links,
      Event.framebufferCreated fl.framebuffer_id
        (resolveFramebufferTexture r.textures fl.texture_id) ∈ t := by
  obtain ⟨b1, b2, b3, b4, b5, b6, b7, b8, b9, b10, t2, t3, t4, t5, t6, t7, t8, t9, t10,
    canvas, gl, rc, h1, h2, h3, h4, h5, h6, h7, h8, h9, h10, hc, hg, hrc, hr, ht⟩ :=
    build_ok_decomp h
  obtain ⟨c, gl0, hbc, hctx, hb1⟩ := save_webgl_context_ok h1
  obtain ⟨fsm, hl2, hb2⟩ := compile_fragment_shaders_ok h2
  obtain ⟨vsm, hl3, hb3⟩ := compile_vertex_shaders_ok h3
  obtain ⟨ps, vs, hl4, hb4⟩ := link_programs_ok h4
  obtain ⟨gl5, bm, hg5, hl5, hb5⟩ := create_buffers_ok h5
  obtain ⟨gl6, am, hg6, hl6, hb6⟩ := create_attributes_ok h6
  obtain ⟨um, hl7, hb7⟩ := build_uniforms_ok h7
  obtain ⟨gl8, tm, hg8, hl8, hb8⟩ := create_textures_ok h8
  obtain ⟨gl9, fbm, hg9, hl9, hb9⟩ := create_framebuffers_ok h9
  obtain ⟨gl10, tfm, hg10, hl10, hb10⟩ := create_transform_feedbacks_ok h10
  subst hb1 hb2 hb3 hb4 hb5 hb6 hb7 hb8 hb9 hb10
  simp only at hl9
  subst hr
  intro fl hfl
  simp only at hfl ⊢
  have ht9 : t9 = b.framebuffer_links.map (fun fl => Event.framebufferCreated
      fl.framebuffer_id (resolveFramebufferTexture tm fl.texture_id)) := by
    have := createFramebuffersLoop_trace tm b.framebuffer_links b.framebuffers
    rw [hl9] at this
    simpa using this
  have hmem : Event.framebufferCreated fl.framebuffer_id
      (resolveFramebufferTexture tm fl.texture_id) ∈ t9 := by
    rw [ht9]
    exact List.mem_map_of_mem _ hfl
  subst ht
  exact List.mem_append_left _ (List.mem_append_right _ hmem)

/-- The trace of a successful build decomposes into the nine event-emitting
stages, in source order: each segment's events carry that stage's rank, the
attribute segment leaves VAO and `ARRAY_BUFFER` bindings cleared, and the
uniform segment leaves the program binding cleared. -/
theorem build_ok_trace_facts {b : RendererBuilder} {r : Renderer} {t : List Event}
    (h : build b = Except.ok (r, t)) :
    ∃ t2 t3 t4 t5 t6 t7 t8 t9 t10,
      t = t2 ++ (t3 ++ (t4 ++ (t5 ++ (t6 ++ (t7 ++ (t8 ++ (t9 ++ t10))))))) ∧
      (∀ e ∈ t2, stageRank e = 1) ∧
      (∀ e ∈ t3, stageRank e = 2) ∧
      (∀ e ∈ t4, stageRank e = 3) ∧
      (∀ e ∈ t5, stageRank e = 4) ∧
      (∀ e ∈ t6, stageRank e = 5) ∧
      (∀ e ∈ t7, stageRank e = 6) ∧
      (∀ e ∈ t8, stageRank e = 7) ∧
      (∀ e ∈ t9, stageRank e = 8) ∧
      (∀ e ∈ t10, stageRank e = 9) ∧
      VaoEndsClear t6 ∧ BufferEndsClear t6 ∧ ProgramEndsClear t7 := by
  obtain ⟨b1, b2, b3, b4, b5, b6, b7, b8, b9, b10, t2, t3, t4, t5, t6, t7, t8, t9, t10,
    canvas, gl, rc, h1, h2, h3, h4, h5, h6, h7, h8, h9, h10, hc, hg, hrc, hr, ht⟩ :=
    build_ok_decomp h
  obtain ⟨fsm, hl2, hb2⟩ := compile_fragment_shaders_ok h2
  obtain ⟨vsm, hl3, hb3⟩ := compile_vertex_shaders_ok h3
  obtain ⟨ps, vs, hl4, hb4⟩ := link_programs_ok h4
  obtain ⟨gl5, bm, hg5, hl5, hb5⟩ := create_buffers_ok h5
  obtain ⟨gl6, am, hg6, hl6, hb6⟩ := create_attributes_ok h6
  obtain ⟨um, hl7, hb7⟩ := build_uniforms_ok h7
  obtain ⟨gl8, tm, hg8, hl8, hb8⟩ := create_textures_ok h8
  obtain ⟨gl9, fbm, hg9, hl9, hb9⟩ := create_framebuffers_ok h9
  obtain ⟨gl10, tfm, hg10, hl10, hb10⟩ := create_transform_feedbacks_ok h10
  refine ⟨t2, t3, t4, t5, t6, t7, t8, t9, t10, ?_, ?_, ?_, ?_, ?_, ?_, ?_, ?_, ?_, ?_,
    ?_, ?_, ?_⟩
  · rw [ht]
    simp [List.append_assoc]
  · intro e he
    obtain ⟨id, rfl⟩ := compileShadersLoop_events _ _ _ _ hl2 e he
    rfl
  · intro e he
    obtain ⟨id, rfl⟩ := compileShadersLoop_events _ _ _ _ hl3 e he
    rfl
  · intro e he
    obtain ⟨id, rfl⟩ := linkProgramsLoop_events _ _ _ _ _ _ hl4 e he
    rfl
  · intro e he
    have he' : e ∈ (createBuffersLoop b4.buffer_links b4.buffers).2 := by
      rw [hl5]
      exact he
    obtain ⟨id, handle, rfl⟩ := createBuffersLoop_events _ _ e he'
    rfl
  · exact createAttributesLoop_events _ _ _ _ hl6
  · exact buildUniformsLoop_events _ _ _ _ hl7
  · intro e he
    have he' : e ∈ (createTexturesLoop b7.texture_links b7.textures).2 := by
      rw [hl8]
      exact he
    obtain ⟨id, handle, rfl⟩ := createTexturesLoop_events _ _ e he'
    rfl
  · intro e he
    have he' : e ∈ (createFramebuffersLoop b8.textures b8.framebuffer_links
        b8.framebuffers).2 := by
      rw [hl9]
      exact he
    rw [createFramebuffersLoop_trace] at he'
    obtain ⟨fl, _, rfl⟩ := List.mem_map.mp he'
    rfl
  · intro e he
    obtain ⟨id, rfl⟩ := createTransformFeedbacksLoop_events _ _ _ _ hl10 e he
    rfl
  · exact (createAttributesLoop_clear _ _ _ _ hl6).1
  · exact (createAttributesLoop_clear _ _ _ _ hl6).2
  · exact buildUniformsLoop_program_clear _ _ _ _ hl7

/-- Pairwise-rank assembly step: a block of constant rank `k` prepended to a
rank-sorted tail whose ranks are all at least `k`. -/
theorem pairwise_rank_append {t1 t2 : List Event} {k : Nat}
    (h1 : ∀ e ∈ t1, stageRank e = k)
    (h2 : t2.Pairwise (fun a c => stageRank a ≤ stageRank c))
    (hge : ∀ e ∈ t2, k ≤ stageRank e) :
    (t1 ++ t2).Pairwise (fun a c => stageRank a ≤ stageRank c) ∧
    ∀ e ∈ t1 ++ t2, k ≤ stageRank e := by
  constructor
  · rw [List.pairwise_append]
    refine ⟨?_, h2, ?_⟩
    · exact List.pairwise_of_forall_mem_list
        (fun a ha c hc => by rw [h1 a ha, h1 c hc])
    · intro a ha c hc
      rw [h1 a ha]
      exact hge c hc
  · intro e he
    rcases List.mem_append.mp he with he | he
    · rw [h1 e he]
    · exact hge e he

/-- All three binding components end cleared (or untouched). -/
def AllClear (t : List Event) : Prop :=
  ProgramEndsClear t ∧ VaoEndsClear t ∧ BufferEndsClear t

theorem AllClear_append {t1 t2 : List Event} (h1 : AllClear t1) (h2 : AllClear t2) :
    AllClear (t1 ++ t2) :=
  ⟨ProgramEndsClear_append h1.1 h2.1, VaoEndsClear_append h1.2.1 h2.2.1,
    BufferEndsClear_append h1.2.2 h2.2.2⟩

theorem AllClear_of_rank {t : List Event} {k : Nat}
    (hk : ∀ e ∈ t, stageRank e = k) (h5 : k ≠ 5) (h6 : k ≠ 6) : AllClear t := by
  refine ⟨ProgramEndsClear_of_no_use ?_, VaoEndsClear_of_no_bind ?_,
    BufferEndsClear_of_no_bind ?_⟩
  · intro e he
    exact isUseProgram_false_of_rank (by rw [hk e he]; exact h6)
  · intro e he
    exact isBindVertexArray_false_of_rank (by rw [hk e he]; exact h5)
  · intro e he
    exact isBindArrayBuffer_false_of_rank (by rw [hk e he]; exact h5)

/-! ### Claim theorems -/

/-- C2 (counterexample): registering two framebuffer links with the same
identifier `"fb"` — first with creation callback 1, then with callback 2 —
and building yields a resource table holding the FIRST registration's
framebuffer (handle 1), not the latest registration's (handle 2): re-adding
does not replace. -/
theorem c2_readd_counterexample :
    (build exReAddBuilder).isOk = true ∧
    lookupAL (buildRenderer exReAddBuilder).framebuffers "fb" =
      some { framebuffer_id := "fb", webgl_framebuffer := 1 } ∧
    lookupAL (buildRenderer exReAddBuilder).framebuffers "fb" ≠
      some { framebuffer_id := "fb", webgl_framebuffer := 2 } := by
  refine ⟨?_, ?_, ?_⟩ <;> decide

/-- C2 (amended): for every builder and framebuffer links `l1`, `l2` with
equal identifiers, registering `l1` and then `l2` leaves the builder exactly
as after registering `l1` alone — `HashSet::insert` (keyed by the link's
identifier, per `FramebufferLink`'s `Hash`/`PartialEq`) keeps the prior link
and discards the new one, so after build the resource table reflects the
FIRST registration's callback, not the latest. -/
theorem c2_readd_keeps_first (b : RendererBuilder) (l1 l2 : FramebufferLink)
    (hid : l1.framebuffer_id = l2.framebuffer_id) :
    add_framebuffer_link (add_framebuffer_link b l1) l2 =
      add_framebuffer_link b l1 := by
  simp only [add_framebuffer_link]
  rw [insertKeyed_same_key _ _ _ _ hid]

/-- Witness for C2's amended theorem at a concrete builder and links. -/
theorem c2_readd_keeps_first_witness :
    ({ framebuffer_id := "fb", texture_id := none,
       framebuffer_create_callback := 1 } : FramebufferLink).framebuffer_id =
      ({ framebuffer_id := "fb", texture_id := none,
         framebuffer_create_callback := 2 } : FramebufferLink).framebuffer_id ∧
    add_framebuffer_link (add_framebuffer_link RendererBuilder.new
        { framebuffer_id := "fb", texture_id := none, framebuffer_create_callback := 1 })
      { framebuffer_id := "fb", texture_id := none, framebuffer_create_callback := 2 } =
    add_framebuffer_link RendererBuilder.new
      { framebuffer_id := "fb", texture_id := none, framebuffer_create_callback := 1 } :=
  ⟨rfl, c2_readd_keeps_first RendererBuilder.new
    { framebuffer_id := "fb", texture_id := none, framebuffer_create_callback := 1 }
    { framebuffer_id := "fb", texture_id := none, framebuffer_create_callback := 2 } rfl⟩

/-- Ticks never invoke the animation callback once no frame registration is
pending, and no registration ever becomes pending again. -/
theorem frame_ticks_no_pending {w : AnimationWorld} (hw : w.pending_frame = false) :
    ∀ n, (frame_ticks w n).callback_invocations = w.callback_invocations ∧
         (frame_ticks w n).pending_frame = false := by
  intro n
  induction n generalizing w with
  | zero => exact ⟨rfl, hw⟩
  | succ n ih =>
    have htick : frame_tick w = w := by
      unfold frame_tick
      rw [hw]
      simp
    show (frame_ticks (frame_tick w) n).callback_invocations = w.callback_invocations ∧
      (frame_ticks (frame_tick w) n).pending_frame = false
    rw [htick]
    exact ih hw

/-- C9: for every animation handle state, `start_animating()` immediately
followed by `stop_animating()` results in zero additional invocations of the
animation callback, no matter how many host frame ticks elapse afterwards —
stop cancels the pending frame registration before it can fire. -/
theorem c9_start_stop_zero_invocations (w : AnimationWorld) (n : Nat) :
    (frame_ticks (stop_animating (start_animating w)) n).callback_invocations =
      w.callback_invocations := by
  have hpend : (stop_animating (start_animating w)).pending_frame = false := rfl
  have hinv : (stop_animating (start_animating w)).callback_invocations =
      w.callback_invocations := by
    unfold stop_animating start_animating
    by_cases h : w.animating <;> simp [h]
  rw [(frame_ticks_no_pending hpend n).1, hinv]

/-- C3 (counterexample): a builder whose only framebuffer link declares
texture id `"t"` while no texture link is ever registered: build SUCCEEDS and
the create-framebuffer callback is invoked with an absent texture handle —
the declared-but-never-built texture id is silently passed as `none`, not a
build error. -/
theorem c3_dangling_texture_counterexample :
    exDanglingTexBuilder.framebuffer_links =
      [{ framebuffer_id := "fb", texture_id := some "t",
         framebuffer_create_callback := 9 }] ∧
    exDanglingTexBuilder.texture_links = [] ∧
    (build exDanglingTexBuilder).isOk = true ∧
    Event.framebufferCreated "fb" none ∈ buildTrace exDanglingTexBuilder := by
  refine ⟨rfl, rfl, ?_, ?_⟩ <;> decide

/-- C3 (amended): for every framebuffer link of a successfully building
builder, if the link declares no texture reference its create-framebuffer
callback is invoked with an absent texture handle and this is not an error;
and if the link declares a texture id that is not in the built texture table,
the callback is likewise invoked with a silently absent texture handle (and
the build succeeds) — not a build error. -/
theorem c3_framebuffer_texture_resolution {b : RendererBuilder} {r : Renderer}
    {t : List Event} {fl : FramebufferLink}
    (h : build b = Except.ok (r, t)) (hfl : fl ∈ b.framebuffer_links) :
    (fl.texture_id = none →
      Event.framebufferCreated fl.framebuffer_id none ∈ t) ∧
    (∀ tid, fl.texture_id = some tid → containsKeyAL r.textures tid = false →
      Event.framebufferCreated fl.framebuffer_id none ∈ t) := by
  have hmem := build_ok_framebuffer_events h fl hfl
  constructor
  · intro hnone
    rw [hnone] at hmem
    simpa [resolveFramebufferTexture] using hmem
  · intro tid htid hmiss
    rw [htid] at hmem
    have hres : resolveFramebufferTexture r.textures (some tid) = none := by
      unfold containsKeyAL at hmiss
      cases hl : lookupAL r.textures tid with
      | none => simp [resolveFramebufferTexture, hl]
      | some tex =>
        rw [hl] at hmiss
        simp at hmiss
    rw [hres] at hmem
    exact hmem

/-- Witness for C3's amended theorem at the concrete dangling-texture
builder. -/
theorem c3_framebuffer_texture_resolution_witness :
    build exDanglingTexBuilder =
      Except.ok (buildRenderer exDanglingTexBuilder, buildTrace exDanglingTexBuilder) ∧
    ({ framebuffer_id := "fb", texture_id := some "t",
       framebuffer_create_callback := 9 } : FramebufferLink) ∈
      exDanglingTexBuilder.framebuffer_links ∧
    ((({ framebuffer_id := "fb", texture_id := some "t",
          framebuffer_create_callback := 9 } : FramebufferLink).texture_id = none →
      Event.framebufferCreated "fb" none ∈ buildTrace exDanglingTexBuilder) ∧
    (∀ tid,
      ({ framebuffer_id := "fb", texture_id := some "t",
         framebuffer_create_callback := 9 } : FramebufferLink).texture_id = some tid →
      containsKeyAL (buildRenderer exDanglingTexBuilder).textures tid = false →
      Event.framebufferCreated "fb" none ∈ buildTrace exDanglingTexBuilder)) :=
  ⟨rfl, by decide,
    @c3_framebuffer_texture_resolution exDanglingTexBuilder
      (buildRenderer exDanglingTexBuilder) (buildTrace exDanglingTexBuilder)
      { framebuffer_id := "fb", texture_id := some "t",
        framebuffer_create_callback := 9 } rfl (by decide)⟩

/-- C4: build is all-or-nothing: either it returns a single error from the
closed `RendererBuilderError` taxonomy and no renderer, or it returns a
renderer whose canvas and context were present and acquired, whose render
callback was supplied, and whose resource tables contain an entry for every
registered link — no half-populated table is ever exposed. -/
theorem c4_build_all_or_nothing (b : RendererBuilder) :
    (∃ e, build b = Except.error e ∧ ∀ r t, build b ≠ Except.ok (r, t)) ∨
    (∃ r t, build b = Except.ok (r, t) ∧
      (∃ c, b.canvas = some c ∧ context_from_canvas c = Except.ok r.gl) ∧
      b.render_callback = some r.render_callback ∧
      (∀ pl ∈ b.program_links, containsKeyAL r.programs pl.program_id = true ∧
        containsKeyAL r.vertex_array_objects pl.program_id = true) ∧
      (∀ bl ∈ b.buffer_links, containsKeyAL r.buffers bl.buffer_id = true) ∧
      (∀ al ∈ b.attribute_links, containsKeyAL r.attributes al.attribute_id = true) ∧
      (∀ ul ∈ b.uniform_links, containsKeyAL r.uniforms ul.uniform_id = true) ∧
      (∀ tl ∈ b.texture_links, containsKeyAL r.textures tl.texture_id = true) ∧
      (∀ fl ∈ b.framebuffer_links,
        containsKeyAL r.framebuffers fl.framebuffer_id = true) ∧
      (∀ tl ∈ b.transform_feedback_links,
        containsKeyAL r.transform_feedbacks tl.transform_feedback_id = true)) := by
  cases hb : build b with
  | error e =>
    left
    exact ⟨e, rfl, fun r t hok => by cases hok⟩
  | ok p =>
    right
    obtain ⟨r, t⟩ := p
    obtain ⟨c, hbc, hctx, hrc⟩ := build_ok_context hb
    obtain ⟨_, _, hprog, hvao, hbuf, hattr, huni, htex, hfb, htf⟩ := build_ok_tables hb
    refine ⟨r, t, rfl, ⟨c, hbc, hctx⟩, hrc, ?_, ?_, ?_, ?_, ?_, ?_, ?_⟩
    · intro pl hpl
      exact ⟨(hprog pl.program_id).mpr (Or.inr (List.mem_map_of_mem _ hpl)),
        (hvao pl.program_id).mpr (Or.inr (List.mem_map_of_mem _ hpl))⟩
    · intro bl hbl
      exact (hbuf bl.buffer_id).mpr (Or.inr (List.mem_map_of_mem _ hbl))
    · intro al hal
      exact (hattr al.attribute_id).mpr (Or.inr (List.mem_map_of_mem _ hal))
    · intro ul hul
      exact (huni ul.uniform_id).mpr (Or.inr (List.mem_map_of_mem _ hul))
    · intro tl htl
      exact (htex tl.texture_id).mpr (Or.inr (List.mem_map_of_mem _ htl))
    · intro fl hfl
      exact (hfb fl.framebuffer_id).mpr (Or.inr (List.mem_map_of_mem _ hfl))
    · intro tl htl
      exact (htf tl.transform_feedback_id).mpr (Or.inr (List.mem_map_of_mem _ htl))

/-- C1 (counterexample): a concrete builder with one program, one uniform and
one texture builds successfully, and in its build trace the uniform's
initialize callback runs STRICTLY BEFORE the texture is created — the
pipeline builds uniforms before textures and framebuffers, refuting the
spec's claimed stage order (textures step 6, framebuffers step 7, uniforms
step 8). -/
theorem c1_spec_order_counterexample :
    (build exStagesBuilder).isOk = true ∧
    Event.uniformInit "u" "prog" ∈ buildTrace exStagesBuilder ∧
    Event.textureCreated "tex" 20 ∈ buildTrace exStagesBuilder ∧
    List.indexOf (Event.uniformInit "u" "prog") (buildTrace exStagesBuilder) <
      List.indexOf (Event.textureCreated "tex" 20) (buildTrace exStagesBuilder) := by
  refine ⟨?_, ?_, ?_, ?_⟩ <;> decide

/-- C1 (amended): the build pipeline executes its resolution stages in the
strict order of the source's `build`: context acquisition, fragment-shader
compilation, vertex-shader compilation, program linking, buffer creation,
attribute creation, UNIFORM BUILDING, texture creation, framebuffer
creation, transform-feedback creation (each stage may fail, aborting the
whole build).  Formally: in every successful build's event trace the stage
ranks are monotonically non-decreasing — in particular every
uniform-building event precedes every texture- and framebuffer-creation
event. -/
theorem c1_build_stage_order {b : RendererBuilder} {r : Renderer} {t : List Event}
    (h : build b = Except.ok (r, t)) :
    t.Pairwise (fun e1 e2 => stageRank e1 ≤ stageRank e2) := by
  obtain ⟨t2, t3, t4, t5, t6, t7, t8, t9, t10, ht, r2, r3, r4, r5, r6, r7, r8, r9, r10,
    _, _, _⟩ := build_ok_trace_facts h
  subst ht
  have s10 : t10.Pairwise (fun a c => stageRank a ≤ stageRank c) ∧
      ∀ e ∈ t10, 9 ≤ stageRank e := by
    constructor
    · exact List.pairwise_of_forall_mem_list
        (fun a ha c hc => by rw [r10 a ha, r10 c hc])
    · intro e he
      rw [r10 e he]
  have s9 := pairwise_rank_append r9 s10.1 (fun e he => by have := s10.2 e he; omega)
  have s8 := pairwise_rank_append r8 s9.1 (fun e he => by have := s9.2 e he; omega)
  have s7 := pairwise_rank_append r7 s8.1 (fun e he => by have := s8.2 e he; omega)
  have s6 := pairwise_rank_append r6 s7.1 (fun e he => by have := s7.2 e he; omega)
  have s5 := pairwise_rank_append r5 s6.1 (fun e he => by have := s6.2 e he; omega)
  have s4 := pairwise_rank_append r4 s5.1 (fun e he => by have := s5.2 e he; omega)
  have s3 := pairwise_rank_append r3 s4.1 (fun e he => by have := s4.2 e he; omega)
  have s2 := pairwise_rank_append r2 s3.1 (fun e he => by have := s3.2 e he; omega)
  exact s2.1

/-- Witness for C1's amended theorem at a concrete successful build. -/
theorem c1_build_stage_order_witness :
    build exStagesBuilder =
      Except.ok (buildRenderer exStagesBuilder, buildTrace exStagesBuilder) ∧
    (buildTrace exStagesBuilder).Pairwise
      (fun e1 e2 => stageRank e1 ≤ stageRank e2) :=
  ⟨rfl, @c1_build_stage_order exStagesBuilder (buildRenderer exStagesBuilder)
    (buildTrace exStagesBuilder) rfl⟩

/-- C10: the build restores GPU binding state: running a successful build's
trace over any initial binding state leaves the active program, the bound
VAO and the bound `ARRAY_BUFFER` each either unbound (`none`) or untouched —
no binding established during the build remains active (every
uniform-initialization iteration ends with `use_program(None)`, every
per-program attribute setup ends by unbinding the VAO and `ARRAY_BUFFER`,
and no later stage binds anything). -/
theorem c10_bindings_restored {b : RendererBuilder} {r : Renderer} {t : List Event}
    (h : build b = Except.ok (r, t)) (s : GLState) :
    ((runEvents s t).current_program = none ∨
     (runEvents s t).current_program = s.current_program) ∧
    ((runEvents s t).bound_vertex_array = none ∨
     (runEvents s t).bound_vertex_array = s.bound_vertex_array) ∧
    ((runEvents s t).bound_array_buffer = none ∨
     (runEvents s t).bound_array_buffer = s.bound_array_buffer) := by
  obtain ⟨t2, t3, t4, t5, t6, t7, t8, t9, t10, ht, r2, r3, r4, r5, r6, r7, r8, r9, r10,
    hvc, hbc2, hpc⟩ := build_ok_trace_facts h
  subst ht
  have a2 : AllClear t2 := AllClear_of_rank r2 (by decide) (by decide)
  have a3 : AllClear t3 := AllClear_of_rank r3 (by decide) (by decide)
  have a4 : AllClear t4 := AllClear_of_rank r4 (by decide) (by decide)
  have a5 : AllClear t5 := AllClear_of_rank r5 (by decide) (by decide)
  have a6 : AllClear t6 := ⟨ProgramEndsClear_of_no_use
      (fun e he => isUseProgram_false_of_rank (by rw [r6 e he]; decide)), hvc, hbc2⟩
  have a7 : AllClear t7 := ⟨hpc,
    VaoEndsClear_of_no_bind
      (fun e he => isBindVertexArray_false_of_rank (by rw [r7 e he]; decide)),
    BufferEndsClear_of_no_bind
      (fun e he => isBindArrayBuffer_false_of_rank (by rw [r7 e he]; decide))⟩
  have a8 : AllClear t8 := AllClear_of_rank r8 (by decide) (by decide)
  have a9 : AllClear t9 := AllClear_of_rank r9 (by decide) (by decide)
  have a10 : AllClear t10 := AllClear_of_rank r10 (by decide) (by decide)
  have hall : AllClear
      (t2 ++ (t3 ++ (t4 ++ (t5 ++ (t6 ++ (t7 ++ (t8 ++ (t9 ++ t10)))))))) :=
    AllClear_append a2 (AllClear_append a3 (AllClear_append a4 (AllClear_append a5
      (AllClear_append a6 (AllClear_append a7 (AllClear_append a8
        (AllClear_append a9 a10)))))))
  exact ⟨hall.1 s, hall.2.1 s, hall.2.2 s⟩

/-- A fully-bound GPU binding state used for concrete instantiation. -/
def exBoundState : GLState :=
  { current_program := some 99, bound_vertex_array := some 98,
    bound_array_buffer := some 97 }

/-- Witness for C10 at a concrete successful build and a fully-bound initial
state. -/
theorem c10_bindings_restored_witness :
    build exStagesBuilder =
      Except.ok (buildRenderer exStagesBuilder, buildTrace exStagesBuilder) ∧
    (((runEvents exBoundState (buildTrace exStagesBuilder)).current_program = none ∨
      (runEvents exBoundState
        (buildTrace exStagesBuilder)).current_program = exBoundState.current_program) ∧
     ((runEvents exBoundState (buildTrace exStagesBuilder)).bound_vertex_array = none ∨
      (runEvents exBoundState
        (buildTrace exStagesBuilder)).bound_vertex_array = exBoundState.bound_vertex_array) ∧
     ((runEvents exBoundState (buildTrace exStagesBuilder)).bound_array_buffer = none ∨
      (runEvents exBoundState
        (buildTrace exStagesBuilder)).bound_array_buffer = exBoundState.bound_array_buffer)) :=
  ⟨rfl, @c10_bindings_restored exStagesBuilder (buildRenderer exStagesBuilder)
    (buildTrace exStagesBuilder) rfl exBoundState⟩

/-- C5: missing GPU names fail the build: a build never succeeds while some
attribute name resolves to the `-1` sentinel or some uniform name resolves to
an absent location (first two conjuncts); and the failing lookup yields
exactly the corresponding "location not found" error in the creation loop
(last two conjuncts). -/
theorem c5_location_not_found {b : RendererBuilder} {r : Renderer} {t : List Event}
    (h : build b = Except.ok (r, t)) :
    (∀ al ∈ b.attribute_links, ∀ pid ∈ al.program_ids, ∃ prog,
        lookupAL r.programs pid = some prog ∧
        r.gl.getAttribLocation prog al.attribute_id ≠ -1) ∧
    (∀ ul ∈ b.uniform_links, ∀ pid ∈ ul.program_ids, ∃ prog,
        lookupAL r.programs pid = some prog ∧
        (r.gl.getUniformLocation prog ul.uniform_id).isSome = true) ∧
    (∀ (programs vaos : List (String × Nat)) (gl : WebGl2RenderingContext)
        (attribute_id : String) (webgl_buffer : Nat) (prog vao : Nat)
        (pid : String) (rest : List String) (locs : List (String × Int)),
      lookupAL programs pid = some prog →
      lookupAL vaos pid = some vao →
      gl.getAttribLocation prog attribute_id = -1 →
      attributeProgramsLoop programs vaos gl attribute_id webgl_buffer
          (pid :: rest) locs =
        Except.error RendererBuilderError.AttributeLocationNotFoundCreateAttributeError) ∧
    (∀ (programs : List (String × Nat)) (gl : WebGl2RenderingContext)
        (uniform_id : String) (prog : Nat) (pid : String) (rest : List String)
        (locs : List (String × Nat)),
      lookupAL programs pid = some prog →
      gl.getUniformLocation prog uniform_id = none →
      uniformProgramsLoop programs gl uniform_id (pid :: rest) locs =
        Except.error
          (RendererBuilderError.UniformLocationNotFoundBuildUniformsError uniform_id)) := by
  obtain ⟨hattr, huni⟩ := build_ok_resolution h
  refine ⟨?_, ?_, ?_, ?_⟩
  · intro al hal pid hpid
    obtain ⟨prog, vao, hp, hv, hloc⟩ := (hattr al hal).2 pid hpid
    exact ⟨prog, hp, hloc⟩
  · intro ul hul pid hpid
    obtain ⟨prog, loc, hp, hloc⟩ := huni ul hul pid hpid
    exact ⟨prog, hp, by rw [hloc]; rfl⟩
  · intro programs vaos gl attribute_id webgl_buffer prog vao pid rest locs hp hv hloc
    simp [attributeProgramsLoop, hp, hv, hloc]
  · intro programs gl uniform_id prog pid rest locs hp hloc
    simp [uniformProgramsLoop, hp, hloc]

/-- Witness for C5 at a concrete successful build. -/
theorem c5_location_not_found_witness :
    build exStagesBuilder =
      Except.ok (buildRenderer exStagesBuilder, buildTrace exStagesBuilder) ∧
    (∀ al ∈ exStagesBuilder.attribute_links, ∀ pid ∈ al.program_ids, ∃ prog,
        lookupAL (buildRenderer exStagesBuilder).programs pid = some prog ∧
        (buildRenderer exStagesBuilder).gl.getAttribLocation prog al.attribute_id ≠ -1) :=
  ⟨rfl, (@c5_location_not_found exStagesBuilder (buildRenderer exStagesBuilder)
    (buildTrace exStagesBuilder) rfl).1⟩

/-- C6: attribute links must reference registered programs: when built from a
fresh builder (empty resolved-program table), a successful build implies
every attribute link's every owning program id is among the registered
program links' ids (first conjunct); and an unresolvable program id yields
exactly the "program not found" attribute-creation error in the loop, never a
silent skip (second conjunct). -/
theorem c6_attribute_program_not_found {b : RendererBuilder} {r : Renderer}
    {t : List Event} (h : build b = Except.ok (r, t)) (hp0 : b.programs = []) :
    (∀ al ∈ b.attribute_links, ∀ pid ∈ al.program_ids,
      pid ∈ b.program_links.map ProgramLink.program_id) ∧
    (∀ (programs vaos : List (String × Nat)) (gl : WebGl2RenderingContext)
        (attribute_id : String) (webgl_buffer : Nat) (pid : String)
        (rest : List String) (locs : List (String × Int)),
      lookupAL programs pid = none →
      attributeProgramsLoop programs vaos gl attribute_id webgl_buffer
          (pid :: rest) locs =
        Except.error RendererBuilderError.ProgramNotFoundCreateAttributeError) := by
  obtain ⟨hattr, _⟩ := build_ok_resolution h
  obtain ⟨_, _, hprog, _, _, _, _, _, _, _⟩ := build_ok_tables h
  constructor
  · intro al hal pid hpid
    obtain ⟨prog, vao, hp, hv, hloc⟩ := (hattr al hal).2 pid hpid
    have hck : containsKeyAL r.programs pid = true := by
      unfold containsKeyAL
      rw [hp]
      rfl
    rcases (hprog pid).mp hck with hc | hc
    · rw [hp0] at hc
      simp [containsKeyAL, lookupAL] at hc
    · exact hc
  · intro programs vaos gl attribute_id webgl_buffer pid rest locs hp
    simp [attributeProgramsLoop, hp]

/-- Witness for C6 at a concrete successful build. -/
theorem c6_attribute_program_not_found_witness :
    build exStagesBuilder =
      Except.ok (buildRenderer exStagesBuilder, buildTrace exStagesBuilder) ∧
    exStagesBuilder.programs = [] ∧
    (∀ al ∈ exStagesBuilder.attribute_links, ∀ pid ∈ al.program_ids,
      pid ∈ exStagesBuilder.program_links.map ProgramLink.program_id) :=
  ⟨rfl, rfl, (@c6_attribute_program_not_found exStagesBuilder (buildRenderer exStagesBuilder)
    (buildTrace exStagesBuilder) rfl rfl).1⟩

/-- C7: `build_uniform` processes each owning program id in turn: it resolves
the program, activates it, resolves the uniform's location by name, invokes
the initialize callback once, records the location for that program, and
deactivates the program — so a uniform owned by `n` distinct programs has its
initialize callback invoked `n` times (event count) and `n` recorded
locations, and each per-program segment of the trace activates the program
before the initialize event and deactivates afterwards. -/
theorem c7_build_uniform {b : RendererBuilder} {ul : UniformLink} {u : Uniform}
    {t : List Event} {gl : WebGl2RenderingContext}
    (hgl : b.gl = some gl) (h : build_uniform b ul = Except.ok (u, t)) :
    t = ul.program_ids.flatMap (fun pid =>
      [Event.useProgram (lookupAL b.programs pid),
       Event.uniformInit ul.uniform_id pid,
       Event.useProgram none]) ∧
    countUniformInits t = ul.program_ids.length ∧
    (∀ pid ∈ ul.program_ids, ∃ prog loc,
      lookupAL b.programs pid = some prog ∧
      gl.getUniformLocation prog ul.uniform_id = some loc ∧
      lookupAL u.uniform_locations pid = some loc) ∧
    (ul.program_ids.Nodup → u.uniform_locations.length = ul.program_ids.length) := by
  obtain ⟨gl2, hg2, hl, hpids, huid⟩ := build_uniform_ok h
  rw [hgl] at hg2
  injection hg2 with hgg
  subst hgg
  have htr := uniformProgramsLoop_trace _ _ _ _ hl
  refine ⟨htr, ?_, ?_, ?_⟩
  · rw [htr]
    exact countUniformInits_bind _ _ _
  · intro pid hpid
    obtain ⟨prog, loc, hp, hloc⟩ := uniformProgramsLoop_facts _ _ _ _ hl pid hpid
    refine ⟨prog, loc, hp, hloc, ?_⟩
    have hlocs := uniformProgramsLoop_locations _ _ _ _ hl pid
    rw [if_pos hpid] at hlocs
    rw [hlocs, hp]
    simpa using hloc
  · intro hnd
    have hlen := uniformProgramsLoop_length _ _ _ _ hl hnd (fun pid _ => rfl)
    simpa using hlen

/-- Builder state as `build_uniform` receives it mid-pipeline: context
acquired and one linked program in the resolved table. -/
def exUniformBuilder : RendererBuilder :=
  { RendererBuilder.new with gl := some glOk, programs := [("prog", 10)] }

/-- A uniform link owned by the one program of `exUniformBuilder`. -/
def exUniformLink : UniformLink :=
  { program_ids := ["prog"], uniform_id := "u", initialize_callback := 1,
    update_callback := none, should_update_callback := none,
    use_init_callback_for_update := false }

/-- The uniform and trace `build_uniform` produces on `exUniformBuilder`. -/
def exBuiltUniform : Uniform × List Event :=
  match build_uniform exUniformBuilder exUniformLink with
  | Except.ok p => p
  | Except.error _ =>
    ({ program_ids := [], uniform_id := "", uniform_locations := [],
       initialize_callback := 0, update_callback := none,
       should_update_callback := none }, [])

/-- Witness for C7 at a concrete builder and uniform link. -/
theorem c7_build_uniform_witness :
    exUniformBuilder.gl = some glOk ∧
    build_uniform exUniformBuilder exUniformLink =
      Except.ok (exBuiltUniform.1, exBuiltUniform.2) ∧
    countUniformInits exBuiltUniform.2 = exUniformLink.program_ids.length :=
  ⟨rfl, rfl,
    (@c7_build_uniform exUniformBuilder exUniformLink exBuiltUniform.1
    exBuiltUniform.2 glOk rfl rfl).2.1⟩

/-- C8: on a renderer built from a fresh builder, the runtime resolvers
`use_program_with_vao` and `update_uniform` abort (modelled as `none`, the
`.expect` panic) exactly on identifiers that were never registered as links;
for every registered-and-built identifier they never hit that abort. -/
theorem c8_accessor_abort {b : RendererBuilder} {r : Renderer} {t : List Event}
    (h : build b = Except.ok (r, t)) (hp0 : b.programs = [])
    (_hv0 : b.vertex_array_objects = []) (hu0 : b.uniforms = []) :
    (∀ pid, pid ∈ b.program_links.map ProgramLink.program_id →
      (use_program_with_vao r pid).isSome = true) ∧
    (∀ pid, pid ∉ b.program_links.map ProgramLink.program_id →
      use_program_with_vao r pid = none) ∧
    (∀ uid, uid ∈ b.uniform_links.map UniformLink.uniform_id →
      (update_uniform r uid).isSome = true) ∧
    (∀ uid, uid ∉ b.uniform_links.map UniformLink.uniform_id →
      update_uniform r uid = none) := by
  obtain ⟨_, _, hprog, hvao, _, _, huni, _, _, _⟩ := build_ok_tables h
  refine ⟨?_, ?_, ?_, ?_⟩
  · intro pid hpid
    have h1 : containsKeyAL r.programs pid = true := (hprog pid).mpr (Or.inr hpid)
    have h2 : containsKeyAL r.vertex_array_objects pid = true :=
      (hvao pid).mpr (Or.inr hpid)
    unfold containsKeyAL at h1 h2
    obtain ⟨prog, hl1⟩ := Option.isSome_iff_exists.mp h1
    obtain ⟨vao, hl2⟩ := Option.isSome_iff_exists.mp h2
    simp [use_program_with_vao, hl1, hl2]
  · intro pid hpid
    have h1 : containsKeyAL r.programs pid = false := by
      rcases Bool.eq_false_or_eq_true (containsKeyAL r.programs pid) with hT | hF
      · rcases (hprog pid).mp hT with hc | hc
        · rw [hp0] at hc
          simp [containsKeyAL, lookupAL] at hc
        · exact absurd hc hpid
      · exact hF
    unfold containsKeyAL at h1
    have hl1 : lookupAL r.programs pid = none := by
      cases hl : lookupAL r.programs pid with
      | none => rfl
      | some prog =>
        rw [hl] at h1
        simp at h1
    simp [use_program_with_vao, hl1]
  · intro uid huid
    have h1 : containsKeyAL r.uniforms uid = true := (huni uid).mpr (Or.inr huid)
    exact h1
  · intro uid huid
    have h1 : containsKeyAL r.uniforms uid = false := by
      rcases Bool.eq_false_or_eq_true (containsKeyAL r.uniforms uid) with hT | hF
      · rcases (huni uid).mp hT with hc | hc
        · rw [hu0] at hc
          simp [containsKeyAL, lookupAL] at hc
        · exact absurd hc huid
      · exact hF
    unfold containsKeyAL at h1
    cases hl : lookupAL r.uniforms uid with
    | none => exact hl
    | some u =>
      rw [hl] at h1
      simp at h1

/-- Witness for C8 at a concrete built renderer: the registered program id
resolves, an unregistered one aborts. -/
theorem c8_accessor_abort_witness :
    build exStagesBuilder =
      Except.ok (buildRenderer exStagesBuilder, buildTrace exStagesBuilder) ∧
    exStagesBuilder.programs = [] ∧
    (∀ pid, pid ∈ exStagesBuilder.program_links.map ProgramLink.program_id →
      (use_program_with_vao (buildRenderer exStagesBuilder) pid).isSome = true) ∧
    (∀ pid, pid ∉ exStagesBuilder.program_links.map ProgramLink.program_id →
      use_program_with_vao (buildRenderer exStagesBuilder) pid = none) :=
  ⟨rfl, rfl,
    (@c8_accessor_abort exStagesBuilder (buildRenderer exStagesBuilder)
    (buildTrace exStagesBuilder) rfl rfl rfl rfl).1,
    (@c8_accessor_abort exStagesBuilder (buildRenderer exStagesBuilder)
    (buildTrace exStagesBuilder) rfl rfl rfl rfl).2.1⟩

end Wrend
